import Mathlib

/-!
Verification of the sharded, resumable batch-processing scripts in
`scripts_guangda/` (`03_00_preprocessing_mesh_to_point.py`,
`03_10_preprocessing_render.py`, `03_30_preprocessing_iou.py`).

The development shallowly embeds the engine parts of those scripts:
the SHA-1 based partitioner `sha1_shard`, the idempotency check
`need_skip`, the per-item execution loop with failure isolation, and the
`main` driver with its pre-loop validation, discovery and reporting.

Machine integers are modelled as `Nat` with explicit `% 2^32` reductions;
filesystem paths are lists of components; the filesystem is a finite
record of file paths and directory paths; the stage-specific mesh work is
an oracle parameter (an `Except`-valued function), matching its role as an
external collaborator.
-/

/-! ## SHA-1 (the digest used by `hashlib.sha1`), over byte lists -/

def rotl32 (n x : Nat) : Nat := ((x <<< n) ||| (x >>> (32 - n))) % 4294967296

/-- UTF-8 encoding of one character, as Python's `str.encode("utf-8")`
produces for each code point. -/
def utf8EncodeCharBytes (c : Char) : List Nat :=
  let n := c.toNat
  if n < 128 then [n]
  else if n < 2048 then
    [192 ||| (n >>> 6), 128 ||| (n &&& 63)]
  else if n < 65536 then
    [224 ||| (n >>> 12), 128 ||| ((n >>> 6) &&& 63), 128 ||| (n &&& 63)]
  else
    [240 ||| (n >>> 18), 128 ||| ((n >>> 12) &&& 63), 128 ||| ((n >>> 6) &&& 63), 128 ||| (n &&& 63)]

def utf8Bytes (s : String) : List Nat := s.data.flatMap utf8EncodeCharBytes

/-- SHA-1 message padding: append `0x80`, zeros to 56 mod 64, then the
bit length as an 8-byte big-endian integer. -/
def sha1Pad (msg : List Nat) : List Nat :=
  let len := msg.length
  let zeros := (119 - len % 64) % 64
  let lenBits := 8 * len
  msg ++ [128] ++ List.replicate zeros 0 ++
    (List.range 8).map (fun i => (lenBits >>> (8 * (7 - i))) % 256)

def bytesToWordsBE : List Nat → List Nat
  | b0 :: b1 :: b2 :: b3 :: rest =>
      (((b0 <<< 8 ||| b1) <<< 8 ||| b2) <<< 8 ||| b3) :: bytesToWordsBE rest
  | _ => []

def sha1ExtendAux : Nat → Array Nat → Array Nat
  | 0, w => w
  | k + 1, w =>
      let i := w.size
      let x := rotl32 1 ((((w.getD (i - 3) 0) ^^^ (w.getD (i - 8) 0)) ^^^ (w.getD (i - 14) 0)) ^^^ (w.getD (i - 16) 0))
      sha1ExtendAux k (w.push x)

def sha1F (t b c d : Nat) : Nat :=
  if t < 20 then (b &&& c) ||| ((b ^^^ 4294967295) &&& d)
  else if t < 40 then (b ^^^ c) ^^^ d
  else if t < 60 then ((b &&& c) ||| (b &&& d)) ||| (c &&& d)
  else (b ^^^ c) ^^^ d

def sha1K (t : Nat) : Nat :=
  if t < 20 then 1518500249
  else if t < 40 then 1859775393
  else if t < 60 then 2400959708
  else 3395469782

structure Sha1State where
  a : Nat
  b : Nat
  c : Nat
  d : Nat
  e : Nat

def sha1Round (w : Array Nat) (t : Nat) (s : Sha1State) : Sha1State :=
  let temp := (rotl32 5 s.a + sha1F t s.b s.c s.d + s.e + sha1K t + w.getD t 0) % 4294967296
  ⟨temp, s.a, rotl32 30 s.b, s.c, s.d⟩

def sha1Rounds : Nat → Array Nat → Sha1State → Sha1State
  | 0, _, s => s
  | k + 1, w, s => sha1Rounds k w (sha1Round w (80 - (k + 1)) s)

def sha1Block (h : Sha1State) (block : List Nat) : Sha1State :=
  let w := sha1ExtendAux 64 (Array.mk (bytesToWordsBE block))
  let s := sha1Rounds 80 w h
  ⟨(h.a + s.a) % 4294967296, (h.b + s.b) % 4294967296, (h.c + s.c) % 4294967296,
   (h.d + s.d) % 4294967296, (h.e + s.e) % 4294967296⟩

def sha1Blocks : Nat → List Nat → Sha1State → Sha1State
  | 0, _, h => h
  | k + 1, bytes, h => sha1Blocks k (bytes.drop 64) (sha1Block h (bytes.take 64))

def sha1InitState : Sha1State := ⟨1732584193, 4023233417, 2562383102, 271733878, 3285377520⟩

def wordBytesBE (x : Nat) : List Nat := [(x >>> 24) % 256, (x >>> 16) % 256, (x >>> 8) % 256, x % 256]

/-- The 20-byte SHA-1 digest of a byte string, as `hashlib.sha1(...).digest()`. -/
def sha1Digest (msg : List Nat) : List Nat :=
  let padded := sha1Pad msg
  let h := sha1Blocks (padded.length / 64) padded sha1InitState
  wordBytesBE h.a ++ wordBytesBE h.b ++ wordBytesBE h.c ++ wordBytesBE h.d ++ wordBytesBE h.e

/-- `int.from_bytes(bs, byteorder="big", signed=False)`. -/
def beBytesToNat (bs : List Nat) : Nat := bs.foldl (fun acc b => acc * 256 + b) 0

/-! ## Paths as component lists, Python `pathlib` name/stem/suffix -/

/-- Strict lexicographic comparison of character lists by code point,
the order Python uses to compare strings. -/
def charListLt : List Char → List Char → Bool
  | _, [] => false
  | [], _ :: _ => true
  | a :: as, b :: bs => decide (a < b) || (a == b && charListLt as bs)

def strLt (a b : String) : Bool := charListLt a.data b.data

/-- Non-strict lexicographic comparison of paths (component lists),
matching how Python sorts `Path` objects by their parts. -/
def pathLe : List String → List String → Bool
  | [], _ => true
  | _ :: _, [] => false
  | a :: as, b :: bs => strLt a b || (a == b && pathLe as bs)

def insertPath (x : List String) : List (List String) → List (List String)
  | [] => [x]
  | y :: ys => if pathLe x y then x :: y :: ys else y :: insertPath x ys

/-- Stable sort of a path list, the effect of Python's `files.sort()`. -/
def sortPaths : List (List String) → List (List String)
  | [] => []
  | x :: xs => insertPath x (sortPaths xs)

/-- The last path component (`Path.name`); empty for the empty path. -/
def lastComponent (p : List String) : String := p.getLastD ""

/-- Index of the last occurrence of `'.'`, as Python's `str.rfind('.')`
(`none` when absent). -/
def rfindDotAux : List Char → Nat → Option Nat → Option Nat
  | [], _, acc => acc
  | c :: cs, i, acc => rfindDotAux cs (i + 1) (if c = '.' then some i else acc)

def rfindDot (name : String) : Option Nat := rfindDotAux name.data 0 none

/-- `PurePath.stem`: the final component without its suffix. -/
def nameStem (name : String) : String :=
  match rfindDot name with
  | some i => if 0 < i ∧ i < name.data.length - 1 then ⟨name.data.take i⟩ else name
  | none => name

/-- `PurePath.suffix`: the final component's extension, with the dot. -/
def nameSuffix (name : String) : String :=
  match rfindDot name with
  | some i => if 0 < i ∧ i < name.data.length - 1 then ⟨name.data.drop i⟩ else ""
  | none => ""

/-- ASCII lowering, modelling `str.lower()` on the ASCII extension
strings the scripts compare. -/
def strLower (s : String) : String := ⟨s.data.map Char.toLower⟩

/-- `p.relative_to(src_dir).as_posix()`: the slash-joined components of
`p` past the source root. -/
def relKey (src_dir p : List String) : String :=
  String.intercalate "/" (p.drop src_dir.length)

/-! ## The filesystem model -/

/-- A filesystem snapshot: the set of regular-file paths and the set of
directory paths, each a list of components from the root. -/
structure FileSys where
  files : List (List String)
  dirs : List (List String)

def FileSys.existsPath (fs : FileSys) (p : List String) : Bool :=
  decide (p ∈ fs.files) || decide (p ∈ fs.dirs)

def FileSys.isDir (fs : FileSys) (p : List String) : Bool := decide (p ∈ fs.dirs)

def FileSys.writeFile (fs : FileSys) (p : List String) : FileSys :=
  ⟨p :: fs.files, fs.dirs⟩

def FileSys.mkdir (fs : FileSys) (p : List String) : FileSys :=
  ⟨fs.files, p :: fs.dirs⟩

def FileSys.removeFile (fs : FileSys) (p : List String) : FileSys :=
  ⟨fs.files.filter (fun q => q ≠ p), fs.dirs⟩

/-! ## The shared engine shape: arguments, events, loop state -/

/-- The command-line arguments each stage script parses. -/
structure Args where
  src_dir : List String
  tgt_dir : List String
  num_shards : Int
  shard_index : Int
  ignore_existing : Bool
  ext : String

/-- The log lines the scripts emit, abstracted to their content. -/
inductive Event where
  | srcMissing
  | badShardSpec
  | notFound
  | shardInfo (total selected : Nat)
  | skipMsg (name : String)
  | processingMsg (p : List String)
  | okMsg (out_dir : List String)
  | failMsg (p : List String) (err : String)
  | summary (processed skipped failed : Nat)
deriving DecidableEq

/-- Accumulated state of the per-item loop: the three counters, the log,
the list of items for which the stage processor was invoked (ghost
instrumentation), the recorded failures, and the filesystem. -/
structure LoopAcc where
  processed : Nat
  skipped : Nat
  failed : Nat
  events : List Event
  invoked : List (List String)
  failedList : List (List String × String)
  fs : FileSys

/-- The per-item execution loop shared by the stage scripts
(`for idx, path in enumerate(selected, 1): ...`): consult the skip
predicate; otherwise invoke the processor inside the item-boundary
`try/except`, counting success or failure and always continuing. -/
def runLoop (tgt_dir : List String) (skipf : FileSys → List String → Bool)
    (proc : List String → FileSys → FileSys × Except String α) :
    List (List String) → LoopAcc → LoopAcc
  | [], acc => acc
  | p :: rest, acc =>
    let mesh_name := nameStem (lastComponent p)
    let out_dir := tgt_dir ++ [mesh_name]
    if skipf acc.fs out_dir then
      runLoop tgt_dir skipf proc rest
        { acc with skipped := acc.skipped + 1,
                   events := acc.events ++ [.skipMsg mesh_name] }
    else
      match proc p acc.fs with
      | (fs', .ok _) =>
          runLoop tgt_dir skipf proc rest
            { acc with processed := acc.processed + 1,
                       events := acc.events ++ [.processingMsg p, .okMsg out_dir],
                       invoked := acc.invoked ++ [p],
                       fs := fs' }
      | (fs', .error e) =>
          runLoop tgt_dir skipf proc rest
            { acc with failed := acc.failed + 1,
                       events := acc.events ++ [.processingMsg p, .failMsg p e],
                       invoked := acc.invoked ++ [p],
                       failedList := acc.failedList ++ [(p, e)],
                       fs := fs' }

/-- Result of one whole `main` invocation. -/
structure RunResult where
  exitCode : Nat
  events : List Event
  processed : Nat
  skipped : Nat
  failed : Nat
  selectedCount : Nat
  invoked : List (List String)
  failedList : List (List String × String)
  fs : FileSys

/-- `[p for p in src_dir.rglob("*") if p.is_file() and p.suffix.lower() == ext]`
followed by `files.sort()`.  `rglob` on a non-directory yields nothing
(pathlib's selector returns an empty iterator when the root is not a
directory). -/
def discover (fs : FileSys) (src_dir : List String) (ext : String) : List (List String) :=
  if fs.isDir src_dir then
    sortPaths (fs.files.filter fun p =>
      src_dir.isPrefixOf p && decide (src_dir.length < p.length) &&
        (strLower (nameSuffix (lastComponent p)) == ext))
  else []

/-- `should_skip(output_dir, manifest, ignore_existing)`: the common
idempotency check the scripts' `need_skip` functions implement, over an
explicit manifest. -/
def should_skip (manifest : List String) (fs : FileSys) (target_dir : List String)
    (ignore_existing : Bool) : Bool :=
  if !ignore_existing then false
  else manifest.all fun name => fs.existsPath (target_dir ++ [name])

namespace MeshToPoint

def REQUIRED_FILES : List String := ["points.npy", "num_parts.json"]

/-- `sha1_shard` of `03_00_preprocessing_mesh_to_point.py`: SHA-1 of the
UTF-8 bytes of the relative path, first 8 bytes as an unsigned big-endian
integer, reduced modulo `num_shards`. -/
def sha1_shard (relpath : String) (num_shards : Nat) : Nat :=
  let h := sha1Digest (utf8Bytes relpath)
  let v := beBytesToNat (h.take 8)
  v % num_shards

/-- `need_skip` of `03_00`: `False` unless `ignore_existing`; otherwise
every file of `REQUIRED_FILES` must exist under `target_dir`. -/
def need_skip (fs : FileSys) (target_dir : List String) (ignore_existing : Bool) : Bool :=
  if !ignore_existing then false
  else REQUIRED_FILES.all fun name => fs.existsPath (target_dir ++ [name])

/-- `process_one(src_path, out_root)` of `03_00`: derive the output
directory from the stem, `mkdir` it, run the mesh work (the oracle `g`
stands for load/normalize/sample, the stage-specific part), and on
success write `points.npy` and `num_parts.json`, returning `out_dir`.
An exception from the mesh work escapes after the `mkdir`. -/
def process_one (g : List String → Except String Unit) (src_path out_root : List String)
    (fs : FileSys) : FileSys × Except String (List String) :=
  let mesh_name := nameStem (lastComponent src_path)
  let out_dir := out_root ++ [mesh_name]
  let fs1 := fs.mkdir out_dir
  match g src_path with
  | .error e => (fs1, .error e)
  | .ok () =>
      (((fs1.writeFile (out_dir ++ ["points.npy"])).writeFile
          (out_dir ++ ["num_parts.json"])), .ok out_dir)

/-- `main()` of `03_00`: validate the source root and the shard spec
(each failure is `sys.exit(1)`), `mkdir` the target root, discover and
sort candidate files, return early when none are found, select this
shard's subset by `sha1_shard` of the relative key, run the per-item
loop, and emit the summary. -/
def main (args : Args) (g : List String → Except String Unit) (fs0 : FileSys) : RunResult :=
  let src_dir := args.src_dir
  let tgt_dir := args.tgt_dir
  let ext := strLower args.ext
  if !(fs0.existsPath src_dir) then
    ⟨1, [.srcMissing], 0, 0, 0, 0, [], [], fs0⟩
  else if args.num_shards ≤ 0 then
    ⟨1, [.badShardSpec], 0, 0, 0, 0, [], [], fs0⟩
  else if ¬(0 ≤ args.shard_index ∧ args.shard_index < args.num_shards) then
    ⟨1, [.badShardSpec], 0, 0, 0, 0, [], [], fs0⟩
  else
    let fs1 := fs0.mkdir tgt_dir
    let files := discover fs1 src_dir ext
    if files = [] then
      ⟨0, [.notFound], 0, 0, 0, 0, [], [], fs1⟩
    else
      let selected := files.filter fun p =>
        decide ((sha1_shard (relKey src_dir p) args.num_shards.toNat : Int) = args.shard_index)
      let acc0 : LoopAcc := ⟨0, 0, 0, [.shardInfo files.length selected.length], [], [], fs1⟩
      let acc := runLoop tgt_dir (fun fs d => need_skip fs d args.ignore_existing)
        (fun p fs => process_one g p tgt_dir fs) selected acc0
      ⟨0, acc.events ++ [.summary acc.processed acc.skipped acc.failed],
        acc.processed, acc.skipped, acc.failed, selected.length,
        acc.invoked, acc.failedList, acc.fs⟩

end MeshToPoint

namespace Render

def REQUIRED_FILES : List String := ["rendering.png"]

/-- `sha1_shard` of `03_10_preprocessing_render.py` (same algorithm). -/
def sha1_shard (relpath : String) (num_shards : Nat) : Nat :=
  beBytesToNat ((sha1Digest (utf8Bytes relpath)).take 8) % num_shards

/-- `need_skip` of `03_10`, written with `all(...)` in the source. -/
def need_skip (fs : FileSys) (out_dir : List String) (ignore_existing : Bool) : Bool :=
  if !ignore_existing then false
  else REQUIRED_FILES.all fun f => fs.existsPath (out_dir ++ [f])

end Render

namespace Iou

def OUTPUT_FILE : String := "iou.json"

def REQUIRED_FILES : List String := [OUTPUT_FILE]

/-- `sha1_shard` of `03_30_preprocessing_iou.py` (same algorithm). -/
def sha1_shard (relpath : String) (num_shards : Nat) : Nat :=
  let v := beBytesToNat ((sha1Digest (utf8Bytes relpath)).take 8)
  v % num_shards

/-- `need_skip` of `03_30`. -/
def need_skip (fs : FileSys) (out_dir : List String) (ignore_existing : Bool) : Bool :=
  if !ignore_existing then false
  else REQUIRED_FILES.all fun f => fs.existsPath (out_dir ++ [f])

/-- The JSON record `03_30` writes to `iou.json`; IoU values are
idealised as rationals. -/
structure IouCfg where
  iou_mean : ℚ
  iou_max : ℚ
  iou_list : List ℚ
deriving DecidableEq

/-- `np.mean` over the (nonempty) list, in the rational idealisation. -/
def listMean (l : List ℚ) : ℚ := l.sum / l.length

/-- `np.max` over the list, 0 for the empty list (only applied nonempty). -/
def listMax (l : List ℚ) : ℚ := (l.max?).getD 0

/-- `process_one(src_glb, out_root)` of `03_30`: `mkdir` the output
directory, load and normalize the mesh (oracle `load`; its failure
escapes), then compute the IoU list inside an inner `try/except` (oracle
`iou`; its failure is logged and the defaults `0.0 / 0.0 / []` are kept),
and always write `iou.json` with the resulting record. -/
def process_one (load : List String → Except String Unit)
    (iou : List String → Except String (Option (List ℚ)))
    (src_glb out_root : List String) (fs : FileSys) : FileSys × Except String IouCfg :=
  let mesh_name := nameStem (lastComponent src_glb)
  let out_dir := out_root ++ [mesh_name]
  let fs1 := fs.mkdir out_dir
  match load src_glb with
  | .error e => (fs1, .error e)
  | .ok () =>
      let cfg0 : IouCfg := ⟨0, 0, []⟩
      let cfg :=
        match iou src_glb with
        | .error _ => cfg0
        | .ok r =>
            let iou_list := match r with | some l => l | none => []
            if iou_list.isEmpty then { cfg0 with iou_list := iou_list }
            else ⟨listMean iou_list, listMax iou_list, iou_list⟩
      (fs1.writeFile (out_dir ++ [OUTPUT_FILE]), .ok cfg)

end Iou

/-- Paths written by one `03_00` item: the output directory derived from
the stem, and the two artifact files inside it. -/
def MeshToPoint.writtenPaths (out_root src_path : List String) : List (List String) :=
  let out_dir := out_root ++ [nameStem (lastComponent src_path)]
  [out_dir, out_dir ++ ["points.npy"], out_dir ++ ["num_parts.json"]]

/-! ## Ordering lemmas for the path sort -/

theorem charListLt_trans : ∀ (a b c : List Char),
    charListLt a b = true → charListLt b c = true → charListLt a c = true
  | _, [], [], _, h2 => by simp [charListLt] at h2
  | _, _ :: _, [], _, h2 => by simp [charListLt] at h2
  | [], [], _ :: _, h1, _ => by simp [charListLt] at h1
  | [], _ :: _, _ :: _, _, _ => by simp [charListLt]
  | _ :: _, [], _ :: _, h1, _ => by simp [charListLt] at h1
  | a :: as, b :: bs, c :: cs, h1, h2 => by
      simp only [charListLt, Bool.or_eq_true, Bool.and_eq_true, decide_eq_true_eq,
        beq_iff_eq] at h1 h2 ⊢
      rcases h1 with h1 | ⟨rfl, h1⟩
      · rcases h2 with h2 | ⟨rfl, h2⟩
        · exact Or.inl (lt_trans h1 h2)
        · exact Or.inl h1
      · rcases h2 with h2 | ⟨rfl, h2⟩
        · exact Or.inl h2
        · exact Or.inr ⟨rfl, charListLt_trans as bs cs h1 h2⟩

theorem charListLt_connex : ∀ (a b : List Char),
    charListLt a b = false → charListLt b a = false → a = b
  | [], [], _, _ => rfl
  | [], _ :: _, h1, _ => by simp [charListLt] at h1
  | _ :: _, [], _, h2 => by simp [charListLt] at h2
  | a :: as, b :: bs, h1, h2 => by
      rcases lt_trichotomy a b with h | rfl | h
      · rw [charListLt] at h1; simp [h] at h1
      · have hirr : ¬ a < a := lt_irrefl a
        rw [charListLt] at h1 h2
        simp only [hirr, decide_False, Bool.false_or, beq_self_eq_true,
          Bool.true_and] at h1 h2
        exact congrArg (List.cons a) (charListLt_connex as bs h1 h2)
      · rw [charListLt] at h2; simp [h] at h2

theorem strLt_trans {a b c : String} (h1 : strLt a b = true) (h2 : strLt b c = true) :
    strLt a c = true :=
  charListLt_trans a.data b.data c.data h1 h2

theorem strLt_connex (a b : String) (h1 : strLt a b = false) (h2 : strLt b a = false) :
    a = b := by
  cases a; cases b
  exact congrArg String.mk (charListLt_connex _ _ h1 h2)

theorem pathLe_trans : ∀ (a b c : List String),
    pathLe a b = true → pathLe b c = true → pathLe a c = true
  | [], _, _, _, _ => rfl
  | _ :: _, [], _, h1, _ => by simp [pathLe] at h1
  | _ :: _, _ :: _, [], _, h2 => by simp [pathLe] at h2
  | a :: as, b :: bs, c :: cs, h1, h2 => by
      simp only [pathLe, Bool.or_eq_true, Bool.and_eq_true, beq_iff_eq] at h1 h2 ⊢
      rcases h1 with h1 | ⟨rfl, h1⟩
      · rcases h2 with h2 | ⟨rfl, h2⟩
        · exact Or.inl (strLt_trans h1 h2)
        · exact Or.inl h1
      · rcases h2 with h2 | ⟨rfl, h2⟩
        · exact Or.inl h2
        · exact Or.inr ⟨rfl, pathLe_trans as bs cs h1 h2⟩

theorem pathLe_total : ∀ (a b : List String), pathLe a b = true ∨ pathLe b a = true
  | [], _ => Or.inl rfl
  | _ :: _, [] => Or.inr rfl
  | a :: as, b :: bs => by
      cases h1 : strLt a b
      · cases h2 : strLt b a
        · have hab : a = b := strLt_connex a b h1 h2
          subst hab
          rcases pathLe_total as bs with h | h
          · exact Or.inl (by simp [pathLe, h])
          · exact Or.inr (by simp [pathLe, h])
        · exact Or.inr (by simp [pathLe, h2])
      · exact Or.inl (by simp [pathLe, h1])

theorem insertPath_perm (x : List String) : ∀ l, (insertPath x l).Perm (x :: l)
  | [] => List.Perm.refl _
  | y :: ys => by
      rw [insertPath]
      by_cases h : pathLe x y = true
      · rw [if_pos h]
      · rw [if_neg h]
        exact ((insertPath_perm x ys).cons y).trans (List.Perm.swap x y ys)

theorem sortPaths_perm : ∀ l, (sortPaths l).Perm l
  | [] => List.Perm.refl _
  | x :: xs => (insertPath_perm x (sortPaths xs)).trans ((sortPaths_perm xs).cons x)

theorem insertPath_sorted {x : List String} {l : List (List String)}
    (h : List.Sorted (fun a b => pathLe a b = true) l) :
    List.Sorted (fun a b => pathLe a b = true) (insertPath x l) := by
  induction l with
  | nil => simp [insertPath]
  | cons y ys ih =>
      rw [insertPath]
      by_cases hxy : pathLe x y = true
      · rw [if_pos hxy, List.sorted_cons]
        refine ⟨?_, h⟩
        intro b hb
        rcases List.mem_cons.mp hb with rfl | hb
        · exact hxy
        · exact pathLe_trans x y b hxy ((List.sorted_cons.mp h).1 b hb)
      · rw [if_neg hxy]
        have hyx : pathLe y x = true := (pathLe_total x y).resolve_left hxy
        obtain ⟨hy, hys⟩ := List.sorted_cons.mp h
        rw [List.sorted_cons]
        refine ⟨?_, ih hys⟩
        intro b hb
        rcases List.mem_cons.mp ((insertPath_perm x ys).mem_iff.mp hb) with rfl | hbys
        · exact hyx
        · exact hy b hbys

theorem sortPaths_sorted : ∀ l, List.Sorted (fun a b => pathLe a b = true) (sortPaths l)
  | [] => List.sorted_nil
  | x :: xs => insertPath_sorted (sortPaths_sorted xs)

/-! ## Counting lemmas for the partition claim -/

theorem count_filter_ite (a : String) (p : String → Bool) (l : List String) :
    List.count a (l.filter p) = if p a then List.count a l else 0 := by
  by_cases h : p a = true
  · rw [if_pos h, List.count_filter h]
  · rw [if_neg h, List.count_eq_zero]
    intro hmem
    exact h (List.mem_filter.mp hmem).2

theorem sum_ite_range_of_ge (j c n : Nat) (hn : n ≤ j) :
    ((List.range n).map fun i => if j = i then c else 0).sum = 0 := by
  apply List.sum_eq_zero
  intro x hx
  obtain ⟨i, hi, rfl⟩ := List.mem_map.mp hx
  have : i < n := List.mem_range.mp hi
  rw [if_neg (by omega)]

theorem sum_ite_range (j c : Nat) : ∀ n, j < n →
    ((List.range n).map fun i => if j = i then c else 0).sum = c := by
  intro n
  induction n with
  | zero => omega
  | succ m ih =>
      intro hj
      rw [List.range_succ, List.map_append, List.sum_append]
      by_cases hjm : j = m
      · subst hjm
        rw [sum_ite_range_of_ge j c j le_rfl]
        simp
      · have hjlt : j < m := by omega
        rw [ih hjlt]
        simp [hjm]

/-! ## C1: partition completeness and the shard-assignment algorithm -/

/-- C1: for every list of discovered relative keys and every
`num_shards` `n > 0`, each key is assigned by `sha1_shard` to exactly one
shard in `[0, n)`: the shard subsets for indices `0..n-1`, concatenated,
are a permutation of the discovered list (no omission, no duplicate);
moreover the assignment is the first 8 bytes of the SHA-1 digest of the
key's UTF-8 bytes, read as an unsigned big-endian integer, reduced
modulo `n`. -/
theorem shard_partition_complete (files : List String) (n : Nat) (hn : 0 < n) :
    ((List.range n).flatMap fun i =>
        files.filter fun k => MeshToPoint.sha1_shard k n == i).Perm files
    ∧ (∀ key, MeshToPoint.sha1_shard key n < n)
    ∧ (∀ key, MeshToPoint.sha1_shard key n
        = beBytesToNat ((sha1Digest (utf8Bytes key)).take 8) % n) := by
  refine ⟨?_, fun key => Nat.mod_lt _ hn, fun key => rfl⟩
  rw [List.perm_iff_count]
  intro a
  rw [List.count_flatMap]
  have hmap : (List.range n).map
        (List.count a ∘ fun i => files.filter fun k => MeshToPoint.sha1_shard k n == i)
      = (List.range n).map
        fun i => if MeshToPoint.sha1_shard a n = i then List.count a files else 0 := by
    apply List.map_congr_left
    intro i _
    simp only [Function.comp_apply, count_filter_ite, beq_iff_eq]
  have hlt : MeshToPoint.sha1_shard a n < n := by
    unfold MeshToPoint.sha1_shard
    exact Nat.mod_lt _ hn
  rw [hmap, sum_ite_range _ _ n hlt]

/-- Witness for C1 at the spec's own example: keys
`["a.glb", "b.glb", "c.glb"]` and two shards. -/
theorem shard_partition_complete_witness :
    0 < 2 ∧ ((List.range 2).flatMap fun i =>
        (["a.glb", "b.glb", "c.glb"].filter
          fun k => MeshToPoint.sha1_shard k 2 == i)).Perm ["a.glb", "b.glb", "c.glb"] :=
  ⟨by decide, (shard_partition_complete ["a.glb", "b.glb", "c.glb"] 2 (by decide)).1⟩

/-! ## C3: the idempotency check -/

/-- C3: `should_skip` is `false` whenever `ignore_existing` is `false`;
with `ignore_existing = true` it is `true` iff every manifest artifact
exists under the output directory, and removing any single required file
(a path that is not also a directory) makes it `false`; the `need_skip`
functions of `03_00` and `03_10` are exactly this check at their
respective manifests. -/
theorem should_skip_spec (manifest : List String) (fs : FileSys) (dir : List String) :
    should_skip manifest fs dir false = false
    ∧ (should_skip manifest fs dir true = true
        ↔ ∀ name ∈ manifest, fs.existsPath (dir ++ [name]) = true)
    ∧ (∀ name ∈ manifest, (dir ++ [name]) ∉ fs.dirs →
        should_skip manifest (fs.removeFile (dir ++ [name])) dir true = false)
    ∧ (∀ ig, MeshToPoint.need_skip fs dir ig = should_skip MeshToPoint.REQUIRED_FILES fs dir ig)
    ∧ (∀ ig, Render.need_skip fs dir ig = should_skip Render.REQUIRED_FILES fs dir ig) := by
  refine ⟨rfl, ?_, ?_, fun ig => rfl, fun ig => rfl⟩
  · rw [should_skip]
    simp [List.all_eq_true]
  · intro name hname hdir
    have hex : (fs.removeFile (dir ++ [name])).existsPath (dir ++ [name]) = false := by
      simp [FileSys.existsPath, FileSys.removeFile, List.mem_filter, hdir]
    show (List.all manifest
        fun nm => (fs.removeFile (dir ++ [name])).existsPath (dir ++ [nm])) = false
    refine Bool.eq_false_iff.mpr ?_
    rw [ne_eq, List.all_eq_true]
    intro hall
    have hcontra := hall name hname
    simp [hex] at hcontra

/-- Witness for C3: concrete two-file manifest with both artifacts
present; skipping holds, and removing `points.npy` defeats it. -/
theorem should_skip_spec_witness :
    should_skip ["points.npy", "num_parts.json"]
        ⟨[["out", "points.npy"], ["out", "num_parts.json"]], []⟩ ["out"] false = false
    ∧ should_skip ["points.npy", "num_parts.json"]
        ⟨[["out", "points.npy"], ["out", "num_parts.json"]], []⟩ ["out"] true = true
    ∧ should_skip ["points.npy", "num_parts.json"]
        ((⟨[["out", "points.npy"], ["out", "num_parts.json"]], []⟩ : FileSys).removeFile
          (["out"] ++ ["points.npy"])) ["out"] true = false :=
  ⟨(should_skip_spec _ _ _).1,
   (should_skip_spec _ _ _).2.1.mpr (by decide),
   (should_skip_spec ["points.npy", "num_parts.json"]
      ⟨[["out", "points.npy"], ["out", "num_parts.json"]], []⟩ ["out"]).2.2.1
     "points.npy" (by decide) (by decide)⟩

/-! ## C6: determinism and independence of the partitioner -/

/-- C6: `sha1_shard` is a pure function of `(relative_key, num_shards)`:
the `03_00` and `03_30` copies agree on all inputs, the selected subset
of a shard is invariant (up to permutation) under shuffling the input
list, and membership of an item in a shard's subset depends only on its
own key and the shard parameters, never on the other items. -/
theorem shard_of_pure (n i : Nat) (l₁ l₂ : List String) (h : l₁.Perm l₂) :
    (∀ key m, MeshToPoint.sha1_shard key m = Iou.sha1_shard key m)
    ∧ (l₁.filter fun k => MeshToPoint.sha1_shard k n == i).Perm
        (l₂.filter fun k => MeshToPoint.sha1_shard k n == i)
    ∧ (∀ x, x ∈ l₁.filter (fun k => MeshToPoint.sha1_shard k n == i)
        ↔ x ∈ l₁ ∧ MeshToPoint.sha1_shard x n = i) :=
  ⟨fun _ _ => rfl, h.filter _, fun x => by simp [List.mem_filter]⟩

/-- Witness for C6 at a concrete shuffled pair of key lists. -/
theorem shard_of_pure_witness :
    (["a.glb", "b.glb", "c.glb"] : List String).Perm ["c.glb", "a.glb", "b.glb"]
    ∧ (["a.glb", "b.glb", "c.glb"].filter
        fun k => MeshToPoint.sha1_shard k 2 == 0).Perm
      (["c.glb", "a.glb", "b.glb"].filter
        fun k => MeshToPoint.sha1_shard k 2 == 0) :=
  ⟨by decide, (shard_of_pure 2 0 _ _ (by decide)).2.1⟩

/-! ## Execution-loop lemmas -/

theorem runLoop_append {α} (tgt : List String) (skipf : FileSys → List String → Bool)
    (proc : List String → FileSys → FileSys × Except String α)
    (l₁ l₂ : List (List String)) (acc : LoopAcc) :
    runLoop tgt skipf proc (l₁ ++ l₂) acc
      = runLoop tgt skipf proc l₂ (runLoop tgt skipf proc l₁ acc) := by
  induction l₁ generalizing acc with
  | nil => rfl
  | cons p rest ih =>
      rw [List.cons_append, runLoop, runLoop]
      cases hskip : skipf acc.fs (tgt ++ [nameStem (lastComponent p)])
      · simp only [Bool.false_eq_true, if_false]
        rcases hp : proc p acc.fs with ⟨fs', r⟩
        cases r <;> simp only [ih]
      · simp only [if_true, ih]

theorem runLoop_allOk {α} (tgt : List String) (skipf : FileSys → List String → Bool)
    (proc : List String → FileSys → FileSys × Except String α)
    (l : List (List String)) (acc : LoopAcc)
    (hskip : ∀ fs d, skipf fs d = false)
    (hok : ∀ p ∈ l, ∀ fs, ∃ fs' v, proc p fs = (fs', Except.ok v)) :
    (runLoop tgt skipf proc l acc).processed = acc.processed + l.length
    ∧ (runLoop tgt skipf proc l acc).skipped = acc.skipped
    ∧ (runLoop tgt skipf proc l acc).failed = acc.failed
    ∧ (runLoop tgt skipf proc l acc).invoked = acc.invoked ++ l
    ∧ (runLoop tgt skipf proc l acc).failedList = acc.failedList := by
  induction l generalizing acc with
  | nil => simp [runLoop]
  | cons p rest ih =>
      rw [runLoop, hskip]
      simp only [Bool.false_eq_true, if_false]
      obtain ⟨fs', v, hp⟩ := hok p (List.mem_cons_self p rest) acc.fs
      rw [hp]
      obtain ⟨h1, h2, h3, h4, h5⟩ := ih
        { acc with
            processed := acc.processed + 1,
            events := acc.events ++
              [Event.processingMsg p, Event.okMsg (tgt ++ [nameStem (lastComponent p)])],
            invoked := acc.invoked ++ [p],
            fs := fs' }
        (fun q hq fs => hok q (List.mem_cons_of_mem p hq) fs)
      refine ⟨?_, h2, h3, ?_, h5⟩
      · rw [h1, List.length_cons]; dsimp only; omega
      · rw [h4]; simp

theorem runLoop_allSkip {α} (tgt : List String) (skipf : FileSys → List String → Bool)
    (proc : List String → FileSys → FileSys × Except String α)
    (l : List (List String)) (acc : LoopAcc)
    (h : ∀ p ∈ l, skipf acc.fs (tgt ++ [nameStem (lastComponent p)]) = true) :
    (runLoop tgt skipf proc l acc).skipped = acc.skipped + l.length
    ∧ (runLoop tgt skipf proc l acc).processed = acc.processed
    ∧ (runLoop tgt skipf proc l acc).failed = acc.failed
    ∧ (runLoop tgt skipf proc l acc).fs = acc.fs
    ∧ (runLoop tgt skipf proc l acc).invoked = acc.invoked := by
  induction l generalizing acc with
  | nil => simp [runLoop]
  | cons p rest ih =>
      rw [runLoop, h p (List.mem_cons_self p rest)]
      simp only [if_true]
      obtain ⟨h1, h2, h3, h4, h5⟩ := ih
        { acc with
            skipped := acc.skipped + 1,
            events := acc.events ++ [Event.skipMsg (nameStem (lastComponent p))] }
        (fun q hq => h q (List.mem_cons_of_mem p hq))
      refine ⟨?_, h2, h3, h4, h5⟩
      rw [h1, List.length_cons]; dsimp only; omega

theorem need_skip_false (fs : FileSys) (d : List String) :
    MeshToPoint.need_skip fs d false = false := rfl

theorem process_one_ok (g : List String → Except String Unit) (p tgt : List String)
    (fs : FileSys) (h : g p = Except.ok ()) :
    MeshToPoint.process_one g p tgt fs
      = (((fs.mkdir (tgt ++ [nameStem (lastComponent p)])).writeFile
            (tgt ++ [nameStem (lastComponent p)] ++ ["points.npy"])).writeFile
          (tgt ++ [nameStem (lastComponent p)] ++ ["num_parts.json"]),
         Except.ok (tgt ++ [nameStem (lastComponent p)])) := by
  simp only [MeshToPoint.process_one, h]

theorem process_one_error (g : List String → Except String Unit) (p tgt : List String)
    (fs : FileSys) (e : String) (h : g p = Except.error e) :
    MeshToPoint.process_one g p tgt fs
      = (fs.mkdir (tgt ++ [nameStem (lastComponent p)]), Except.error e) := by
  simp only [MeshToPoint.process_one, h]

theorem runLoop_pone_oneFail (g : List String → Except String Unit) (tgt : List String)
    (x : List String) (e : String) (l₁ l₂ : List (List String)) (acc : LoopAcc)
    (hg2 : ∀ p ∈ l₂, g p = Except.ok ()) (hx : g x = Except.error e)
    (hg1 : ∀ p ∈ l₁, g p = Except.ok ()) :
    (runLoop tgt (fun fs d => MeshToPoint.need_skip fs d false)
        (fun p fs => MeshToPoint.process_one g p tgt fs) (l₁ ++ x :: l₂) acc).processed
      = acc.processed + l₁.length + l₂.length
    ∧ (runLoop tgt (fun fs d => MeshToPoint.need_skip fs d false)
        (fun p fs => MeshToPoint.process_one g p tgt fs) (l₁ ++ x :: l₂) acc).skipped
      = acc.skipped
    ∧ (runLoop tgt (fun fs d => MeshToPoint.need_skip fs d false)
        (fun p fs => MeshToPoint.process_one g p tgt fs) (l₁ ++ x :: l₂) acc).failed
      = acc.failed + 1
    ∧ (runLoop tgt (fun fs d => MeshToPoint.need_skip fs d false)
        (fun p fs => MeshToPoint.process_one g p tgt fs) (l₁ ++ x :: l₂) acc).invoked
      = acc.invoked ++ l₁ ++ x :: l₂
    ∧ (runLoop tgt (fun fs d => MeshToPoint.need_skip fs d false)
        (fun p fs => MeshToPoint.process_one g p tgt fs) (l₁ ++ x :: l₂) acc).failedList
      = acc.failedList ++ [(x, e)] := by
  revert hg1
  induction l₁ generalizing acc with
  | nil =>
      intro _
      rw [List.nil_append, runLoop, need_skip_false]
      simp only [Bool.false_eq_true, if_false]
      rw [process_one_error g x tgt acc.fs e hx]
      dsimp only
      have hok2 : ∀ p ∈ l₂, ∀ fs : FileSys, ∃ fs' v,
          (fun p fs => MeshToPoint.process_one g p tgt fs) p fs = (fs', Except.ok v) :=
        fun p hp fs => ⟨_, _, process_one_ok g p tgt fs (hg2 p hp)⟩
      have hsk : ∀ (fs : FileSys) (d : List String),
          (fun fs d => MeshToPoint.need_skip fs d false) fs d = false :=
        fun _ _ => rfl
      refine ⟨?_, ?_, ?_, ?_, ?_⟩
      · rw [(runLoop_allOk _ _ _ l₂ _ hsk hok2).1]; dsimp only
        simp only [List.length_nil]; omega
      · rw [(runLoop_allOk _ _ _ l₂ _ hsk hok2).2.1]
      · rw [(runLoop_allOk _ _ _ l₂ _ hsk hok2).2.2.1]
      · rw [(runLoop_allOk _ _ _ l₂ _ hsk hok2).2.2.2.1]; dsimp only
        simp
      · rw [(runLoop_allOk _ _ _ l₂ _ hsk hok2).2.2.2.2]
  | cons p rest ih =>
      intro hg1
      have hrest : ∀ q ∈ rest, g q = Except.ok () :=
        fun q hq => hg1 q (List.mem_cons_of_mem p hq)
      have hp : g p = Except.ok () := hg1 p (List.mem_cons_self p rest)
      rw [List.cons_append, runLoop, need_skip_false]
      simp only [Bool.false_eq_true, if_false]
      rw [process_one_ok g p tgt acc.fs hp]
      dsimp only
      refine ⟨?_, ?_, ?_, ?_, ?_⟩
      · rw [(ih _ hrest).1]; dsimp only; rw [List.length_cons]; omega
      · rw [(ih _ hrest).2.1]
      · rw [(ih _ hrest).2.2.1]
      · rw [(ih _ hrest).2.2.2.1]; dsimp only; simp
      · rw [(ih _ hrest).2.2.2.2]

/-! ## C4: fault isolation in the execution loop -/

/-- C4: over a selected subset in which the stage call for exactly one
item `x` raises and every other call succeeds (forced skipping off, so
every call happens), the loop catches the failure at the item boundary,
still invokes the processor on every item — including all items after
`x` — finishes, and tallies `processed = N - 1`, `skipped = 0`,
`failed = 1`, recording exactly `x` with its error. -/
theorem fault_isolation (g : List String → Except String Unit) (tgt : List String)
    (l₁ l₂ : List (List String)) (x : List String) (e : String) (fs : FileSys)
    (hg1 : ∀ p ∈ l₁, g p = Except.ok ()) (hg2 : ∀ p ∈ l₂, g p = Except.ok ())
    (hx : g x = Except.error e) :
    (runLoop tgt (fun fs d => MeshToPoint.need_skip fs d false)
        (fun p fs => MeshToPoint.process_one g p tgt fs)
        (l₁ ++ x :: l₂) ⟨0, 0, 0, [], [], [], fs⟩).processed + 1
      = (l₁ ++ x :: l₂).length
    ∧ (runLoop tgt (fun fs d => MeshToPoint.need_skip fs d false)
        (fun p fs => MeshToPoint.process_one g p tgt fs)
        (l₁ ++ x :: l₂) ⟨0, 0, 0, [], [], [], fs⟩).skipped = 0
    ∧ (runLoop tgt (fun fs d => MeshToPoint.need_skip fs d false)
        (fun p fs => MeshToPoint.process_one g p tgt fs)
        (l₁ ++ x :: l₂) ⟨0, 0, 0, [], [], [], fs⟩).failed = 1
    ∧ (runLoop tgt (fun fs d => MeshToPoint.need_skip fs d false)
        (fun p fs => MeshToPoint.process_one g p tgt fs)
        (l₁ ++ x :: l₂) ⟨0, 0, 0, [], [], [], fs⟩).invoked = l₁ ++ x :: l₂
    ∧ (runLoop tgt (fun fs d => MeshToPoint.need_skip fs d false)
        (fun p fs => MeshToPoint.process_one g p tgt fs)
        (l₁ ++ x :: l₂) ⟨0, 0, 0, [], [], [], fs⟩).failedList = [(x, e)] := by
  obtain ⟨h1, h2, h3, h4, h5⟩ :=
    runLoop_pone_oneFail g tgt x e l₁ l₂ ⟨0, 0, 0, [], [], [], fs⟩ hg2 hx hg1
  refine ⟨?_, ?_, ?_, ?_, ?_⟩
  · rw [h1, List.length_append, List.length_cons]; dsimp only; omega
  · rw [h2]
  · rw [h3]
  · rw [h4]; simp
  · rw [h5]; simp

/-- Witness for C4: three items, the middle one failing. -/
theorem fault_isolation_witness :
    (runLoop ["out"] (fun fs d => MeshToPoint.need_skip fs d false)
        (fun p fs => MeshToPoint.process_one
          (fun p => if p = ["b.glb"] then Except.error "boom" else Except.ok ())
          p ["out"] fs)
        ([["a.glb"]] ++ ["b.glb"] :: [["c.glb"]])
        ⟨0, 0, 0, [], [], [], ⟨[], []⟩⟩).processed + 1
      = ([["a.glb"]] ++ ["b.glb"] :: [["c.glb"]]).length
    ∧ (runLoop ["out"] (fun fs d => MeshToPoint.need_skip fs d false)
        (fun p fs => MeshToPoint.process_one
          (fun p => if p = ["b.glb"] then Except.error "boom" else Except.ok ())
          p ["out"] fs)
        ([["a.glb"]] ++ ["b.glb"] :: [["c.glb"]])
        ⟨0, 0, 0, [], [], [], ⟨[], []⟩⟩).failed = 1
    ∧ (runLoop ["out"] (fun fs d => MeshToPoint.need_skip fs d false)
        (fun p fs => MeshToPoint.process_one
          (fun p => if p = ["b.glb"] then Except.error "boom" else Except.ok ())
          p ["out"] fs)
        ([["a.glb"]] ++ ["b.glb"] :: [["c.glb"]])
        ⟨0, 0, 0, [], [], [], ⟨[], []⟩⟩).invoked
      = [["a.glb"]] ++ ["b.glb"] :: [["c.glb"]] := by
  have h := fault_isolation
    (fun p => if p = ["b.glb"] then Except.error "boom" else Except.ok ())
    ["out"] [["a.glb"]] [["c.glb"]] ["b.glb"] "boom" ⟨[], []⟩
    (by intro p hp; rcases List.mem_singleton.mp hp with rfl; rfl)
    (by intro p hp; rcases List.mem_singleton.mp hp with rfl; rfl)
    (by rfl)
  exact ⟨h.1, h.2.2.1, h.2.2.2.1⟩

/-! ## C7: exit status discipline -/

/-- C7: a run that passes the pre-loop validation (source root exists,
`num_shards > 0`, `shard_index` in range) exits with status 0 however
many per-item failures occur, while a missing source root or an invalid
shard spec aborts with exit status 1 before any item is processed. -/
theorem exit_status_spec (args : Args) (g : List String → Except String Unit)
    (fs0 : FileSys) :
    ((fs0.existsPath args.src_dir = true ∧ 0 < args.num_shards
        ∧ 0 ≤ args.shard_index ∧ args.shard_index < args.num_shards) →
      (MeshToPoint.main args g fs0).exitCode = 0)
    ∧ ((fs0.existsPath args.src_dir = false ∨ args.num_shards ≤ 0
        ∨ ¬(0 ≤ args.shard_index ∧ args.shard_index < args.num_shards)) →
      (MeshToPoint.main args g fs0).exitCode = 1
        ∧ (MeshToPoint.main args g fs0).invoked = []
        ∧ (MeshToPoint.main args g fs0).processed = 0) := by
  constructor
  · rintro ⟨hex, hns, hsi1, hsi2⟩
    rw [MeshToPoint.main]
    simp only [hex, Bool.not_true, Bool.false_eq_true, if_false]
    rw [if_neg (by omega : ¬ args.num_shards ≤ 0)]
    rw [if_neg (not_not_intro ⟨hsi1, hsi2⟩)]
    split
    · rfl
    · rfl
  · intro hbad
    cases hex : fs0.existsPath args.src_dir
    · rw [MeshToPoint.main]
      simp only [hex, Bool.not_false, if_true]
      exact ⟨trivial, trivial, trivial⟩
    · rw [MeshToPoint.main]
      simp only [hex, Bool.not_true, Bool.false_eq_true, if_false]
      rcases hbad with hbad | hbad | hbad
      · exact absurd hex (by rw [hbad]; exact Bool.false_ne_true)
      · rw [if_pos hbad]
        exact ⟨rfl, rfl, rfl⟩
      · by_cases hns : args.num_shards ≤ 0
        · rw [if_pos hns]
          exact ⟨rfl, rfl, rfl⟩
        · rw [if_neg hns, if_pos hbad]
          exact ⟨rfl, rfl, rfl⟩

/-- Witness for C7: a valid run over an empty source tree exits 0; a run
with `num_shards = 0` exits 1 having invoked nothing. -/
theorem exit_status_spec_witness :
    (MeshToPoint.main ⟨["r"], ["o"], 1, 0, false, ".glb"⟩
        (fun _ => Except.ok ()) ⟨[], [["r"]]⟩).exitCode = 0
    ∧ (MeshToPoint.main ⟨["r"], ["o"], 0, 0, false, ".glb"⟩
        (fun _ => Except.ok ()) ⟨[], [["r"]]⟩).exitCode = 1
    ∧ (MeshToPoint.main ⟨["r"], ["o"], 0, 0, false, ".glb"⟩
        (fun _ => Except.ok ()) ⟨[], [["r"]]⟩).invoked = [] :=
  ⟨(exit_status_spec _ _ _).1 ⟨by decide, by decide, by decide, by decide⟩,
   ((exit_status_spec _ _ _).2 (Or.inr (Or.inl (by decide)))).1,
   ((exit_status_spec _ _ _).2 (Or.inr (Or.inl (by decide)))).2.1⟩

/-! ## C2: output disjointness across shards -/

set_option maxRecDepth 200000 in
/-- C2 counterexample: the items `a/foo.glb` and `b/foo.glb` fall in
different shards of a two-way partition (so they are processed by
different workers), yet their output paths coincide — the output
directory is derived from the stem only, which both share. -/
theorem shard_outputs_not_disjoint_counterexample :
    MeshToPoint.sha1_shard (relKey [] ["a", "foo.glb"]) 2 = 0
    ∧ MeshToPoint.sha1_shard (relKey [] ["b", "foo.glb"]) 2 = 1
    ∧ MeshToPoint.writtenPaths ["out"] ["a", "foo.glb"]
        = MeshToPoint.writtenPaths ["out"] ["b", "foo.glb"] :=
  ⟨by decide, by decide, by decide⟩

/-- C2 (amended): for two discovered items assigned to different shard
indices, the output paths written for the one are disjoint from the
output paths written for the other provided the items' file stems are
distinct (the stem determines the output directory, so equal-stem items
collide even across shards); and everything `process_one` touches lies
among `writtenPaths` of its item. -/
theorem distinct_stems_disjoint_outputs (src tgt p q : List String) (n : Nat)
    (hshard : MeshToPoint.sha1_shard (relKey src p) n
      ≠ MeshToPoint.sha1_shard (relKey src q) n)
    (hstem : nameStem (lastComponent p) ≠ nameStem (lastComponent q)) :
    (∀ w ∈ MeshToPoint.writtenPaths tgt p, w ∉ MeshToPoint.writtenPaths tgt q)
    ∧ (∀ g fs, ∀ w ∈ (MeshToPoint.process_one g p tgt fs).1.files,
        w ∈ MeshToPoint.writtenPaths tgt p ∨ w ∈ fs.files)
    ∧ (∀ g fs, ∀ w ∈ (MeshToPoint.process_one g p tgt fs).1.dirs,
        w ∈ MeshToPoint.writtenPaths tgt p ∨ w ∈ fs.dirs) := by
  have hform : ∀ (r : List String), ∀ w ∈ MeshToPoint.writtenPaths tgt r,
      ∃ s, w = tgt ++ [nameStem (lastComponent r)] ++ s := by
    intro r w hw
    simp only [MeshToPoint.writtenPaths, List.mem_cons, List.not_mem_nil, or_false] at hw
    rcases hw with rfl | rfl | rfl
    · exact ⟨[], by simp⟩
    · exact ⟨["points.npy"], by simp [List.append_assoc]⟩
    · exact ⟨["num_parts.json"], by simp [List.append_assoc]⟩
  have key : ∀ (s1 s2 : List String),
      tgt ++ [nameStem (lastComponent p)] ++ s1
        ≠ tgt ++ [nameStem (lastComponent q)] ++ s2 := by
    intro s1 s2 h
    rw [List.append_assoc, List.append_assoc] at h
    have h2 := List.append_cancel_left h
    injection h2 with h3 _
    exact hstem h3
  refine ⟨?_, ?_, ?_⟩
  · intro w hw hw'
    obtain ⟨s1, rfl⟩ := hform p w hw
    obtain ⟨s2, heq⟩ := hform q _ hw'
    exact key s1 s2 heq
  · intro g fs w hw
    rw [MeshToPoint.process_one] at hw
    cases hg : g p with
    | error e =>
        rw [hg] at hw
        exact Or.inr hw
    | ok v =>
        cases v
        rw [hg] at hw
        simp only [FileSys.writeFile, FileSys.mkdir, List.mem_cons] at hw
        rcases hw with rfl | rfl | hw
        · exact Or.inl (by simp [MeshToPoint.writtenPaths])
        · exact Or.inl (by simp [MeshToPoint.writtenPaths])
        · exact Or.inr hw
  · intro g fs w hw
    rw [MeshToPoint.process_one] at hw
    cases hg : g p with
    | error e =>
        rw [hg] at hw
        simp only [FileSys.mkdir, List.mem_cons] at hw
        rcases hw with rfl | hw
        · exact Or.inl (by simp [MeshToPoint.writtenPaths])
        · exact Or.inr hw
    | ok v =>
        cases v
        rw [hg] at hw
        simp only [FileSys.writeFile, FileSys.mkdir, List.mem_cons] at hw
        rcases hw with rfl | hw
        · exact Or.inl (by simp [MeshToPoint.writtenPaths])
        · exact Or.inr hw

set_option maxRecDepth 200000 in
/-- Witness for C2 (amended): `a/foo.glb` and `b/bar.glb` land in
different shards of a two-way split and have distinct stems, so their
written paths are disjoint — in particular `b/bar.glb`'s output
directory is not among `a/foo.glb`'s written paths. -/
theorem distinct_stems_disjoint_outputs_witness :
    MeshToPoint.sha1_shard (relKey [] ["a", "foo.glb"]) 2
        ≠ MeshToPoint.sha1_shard (relKey [] ["b", "bar.glb"]) 2
    ∧ (∀ w ∈ MeshToPoint.writtenPaths ["out"] ["a", "foo.glb"],
        w ∉ MeshToPoint.writtenPaths ["out"] ["b", "bar.glb"]) :=
  ⟨by decide,
   (distinct_stems_disjoint_outputs [] ["out"] ["a", "foo.glb"] ["b", "bar.glb"] 2
      (by decide) (by decide)).1⟩

/-! ## C8: discovery and the source-root check -/

/-- C8 counterexample: a source root that exists but is a regular file
(not a directory) does **not** abort the run — validation only checks
existence, `rglob` on a non-directory yields nothing, and the run exits
with status 0 after the "nothing found" message. -/
theorem discovery_nondir_counterexample :
    (⟨[["root"]], []⟩ : FileSys).existsPath ["root"] = true
    ∧ (⟨[["root"]], []⟩ : FileSys).isDir ["root"] = false
    ∧ (MeshToPoint.main ⟨["root"], ["out"], 1, 0, false, ".glb"⟩
        (fun _ => Except.ok ()) ⟨[["root"]], []⟩).exitCode = 0
    ∧ (MeshToPoint.main ⟨["root"], ["out"], 1, 0, false, ".glb"⟩
        (fun _ => Except.ok ()) ⟨[["root"]], []⟩).events = [Event.notFound] :=
  ⟨by decide, by decide, by decide, by decide⟩

/-- C8 (amended): discovery aborts with exit 1 exactly when the source
root does not exist; an existing non-directory root instead yields an
empty discovery and (with a valid shard spec) a normal exit 0; and the
discovered sequence is always lexicographically sorted and, over a
duplicate-free filesystem, deduplicated, by read-only traversal. -/
theorem discovery_spec_amended (args : Args) (g : List String → Except String Unit)
    (fs0 : FileSys) (ext : String) :
    (fs0.existsPath args.src_dir = false →
      (MeshToPoint.main args g fs0).exitCode = 1
        ∧ (MeshToPoint.main args g fs0).invoked = [])
    ∧ (fs0.existsPath args.src_dir = true → 0 < args.num_shards →
        0 ≤ args.shard_index → args.shard_index < args.num_shards →
        (fs0.mkdir args.tgt_dir).isDir args.src_dir = false →
        discover (fs0.mkdir args.tgt_dir) args.src_dir (strLower args.ext) = []
          ∧ (MeshToPoint.main args g fs0).exitCode = 0)
    ∧ List.Sorted (fun a b => pathLe a b = true) (discover fs0 args.src_dir ext)
    ∧ (fs0.files.Nodup → (discover fs0 args.src_dir ext).Nodup) := by
  refine ⟨?_, ?_, ?_, ?_⟩
  · intro hex
    rw [MeshToPoint.main]
    simp only [hex, Bool.not_false, if_true]
    exact ⟨trivial, trivial⟩
  · intro hex hns hsi1 hsi2 hdir
    have hdisc : discover (fs0.mkdir args.tgt_dir) args.src_dir (strLower args.ext) = [] := by
      rw [discover, hdir]
      simp
    refine ⟨hdisc, ?_⟩
    rw [MeshToPoint.main]
    simp only [hex, Bool.not_true, Bool.false_eq_true, if_false]
    rw [if_neg (by omega : ¬ args.num_shards ≤ 0)]
    rw [if_neg (not_not_intro ⟨hsi1, hsi2⟩)]
    rw [if_pos hdisc]
  · rw [discover]
    split
    · exact sortPaths_sorted _
    · exact List.sorted_nil
  · intro hnd
    rw [discover]
    split
    · exact (sortPaths_perm _).symm.nodup (hnd.filter _)
    · exact List.nodup_nil

/-- Witness for C8 (amended): a missing root exits 1; a file root gives
empty discovery and exit 0; a one-file directory discovery is nodup. -/
theorem discovery_spec_amended_witness :
    (MeshToPoint.main ⟨["r"], ["o"], 1, 0, false, ".glb"⟩
        (fun _ => Except.ok ()) ⟨[], []⟩).exitCode = 1
    ∧ discover ((⟨[["root"]], []⟩ : FileSys).mkdir ["out"]) ["root"] (strLower ".glb") = []
    ∧ (discover ⟨[["root", "x.glb"]], [["root"]]⟩ ["root"] ".glb").Nodup :=
  ⟨((discovery_spec_amended ⟨["r"], ["o"], 1, 0, false, ".glb"⟩
      (fun _ => Except.ok ()) ⟨[], []⟩ ".glb").1 (by decide)).1,
   ((discovery_spec_amended ⟨["root"], ["out"], 1, 0, false, ".glb"⟩
      (fun _ => Except.ok ()) ⟨[["root"]], []⟩ ".glb").2.1 (by decide) (by decide)
      (by decide) (by decide) (by decide)).1,
   (discovery_spec_amended ⟨["root"], ["out"], 1, 0, false, ".glb"⟩
      (fun _ => Except.ok ()) ⟨[["root", "x.glb"]], [["root"]]⟩ ".glb").2.2.2 (by decide)⟩

/-! ## C9: the final summary and failure enumeration -/

/-- C9 counterexample: a run that passes pre-loop validation but
discovers zero matching files returns early with only the
"nothing found" message — no processed/skipped/failed summary event is
emitted, contradicting the claim that every validated run ends with the
summary. -/
theorem summary_missing_counterexample :
    (MeshToPoint.main ⟨["root"], ["out"], 1, 0, false, ".glb"⟩
        (fun _ => Except.ok ()) ⟨[], [["root"]]⟩).exitCode = 0
    ∧ (MeshToPoint.main ⟨["root"], ["out"], 1, 0, false, ".glb"⟩
        (fun _ => Except.ok ()) ⟨[], [["root"]]⟩).events = [Event.notFound]
    ∧ ∀ p s f, Event.summary p s f ∉
        (MeshToPoint.main ⟨["root"], ["out"], 1, 0, false, ".glb"⟩
          (fun _ => Except.ok ()) ⟨[], [["root"]]⟩).events := by
  refine ⟨by decide, by decide, ?_⟩
  intro p s f h
  have he : (MeshToPoint.main ⟨["root"], ["out"], 1, 0, false, ".glb"⟩
      (fun _ => Except.ok ()) ⟨[], [["root"]]⟩).events = [Event.notFound] := by decide
  rw [he, List.mem_singleton] at h
  exact Event.noConfusion h

theorem runLoop_failMsg_events {α} (tgt : List String)
    (skipf : FileSys → List String → Bool)
    (proc : List String → FileSys → FileSys × Except String α)
    (l : List (List String)) (acc : LoopAcc)
    (hacc : ∀ pe ∈ acc.failedList, Event.failMsg pe.1 pe.2 ∈ acc.events) :
    ∀ pe ∈ (runLoop tgt skipf proc l acc).failedList,
      Event.failMsg pe.1 pe.2 ∈ (runLoop tgt skipf proc l acc).events := by
  induction l generalizing acc with
  | nil => exact hacc
  | cons p rest ih =>
      rw [runLoop]
      cases hskip : skipf acc.fs (tgt ++ [nameStem (lastComponent p)])
      · simp only [Bool.false_eq_true, if_false]
        rcases hp : proc p acc.fs with ⟨fs', r⟩
        cases r
        · exact ih _ (fun pe hpe => by
            dsimp only at hpe ⊢
            rcases List.mem_append.mp hpe with hpe | hpe
            · exact List.mem_append_left _ (hacc pe hpe)
            · rcases List.mem_singleton.mp hpe with rfl
              exact List.mem_append_right _ (by simp))
        · exact ih _ (fun pe hpe => by
            dsimp only at hpe ⊢
            exact List.mem_append_left _ (hacc pe hpe))
      · simp only [if_true]
        exact ih _ (fun pe hpe => by
          dsimp only at hpe ⊢
          exact List.mem_append_left _ (hacc pe hpe))

/-- C9 (amended): a run that passes pre-loop validation **and discovers
at least one file** ends with the summary event carrying its exact
processed/skipped/failed counters, and every recorded failure is
enumerated in the log with its item identifier and error text; a
validated run with zero discovered files instead ends with only the
"nothing found" message. -/
theorem summary_spec_amended (args : Args) (g : List String → Except String Unit)
    (fs0 : FileSys)
    (hex : fs0.existsPath args.src_dir = true) (hns : 0 < args.num_shards)
    (hsi1 : 0 ≤ args.shard_index) (hsi2 : args.shard_index < args.num_shards) :
    (discover (fs0.mkdir args.tgt_dir) args.src_dir (strLower args.ext) ≠ [] →
      (MeshToPoint.main args g fs0).events.getLast?
        = some (Event.summary (MeshToPoint.main args g fs0).processed
            (MeshToPoint.main args g fs0).skipped (MeshToPoint.main args g fs0).failed)
      ∧ ∀ pe ∈ (MeshToPoint.main args g fs0).failedList,
          Event.failMsg pe.1 pe.2 ∈ (MeshToPoint.main args g fs0).events)
    ∧ (discover (fs0.mkdir args.tgt_dir) args.src_dir (strLower args.ext) = [] →
      (MeshToPoint.main args g fs0).events = [Event.notFound]) := by
  constructor
  · intro hne
    rw [MeshToPoint.main]
    simp only [hex, Bool.not_true, Bool.false_eq_true, if_false]
    rw [if_neg (by omega : ¬ args.num_shards ≤ 0)]
    rw [if_neg (not_not_intro ⟨hsi1, hsi2⟩)]
    rw [if_neg hne]
    constructor
    · dsimp only
      rw [List.getLast?_concat]
    · dsimp only
      intro pe hpe
      exact List.mem_append_left _
        (runLoop_failMsg_events _ _ _ _ _ (fun pe hpe => absurd hpe (List.not_mem_nil pe))
          pe hpe)
  · intro hemp
    rw [MeshToPoint.main]
    simp only [hex, Bool.not_true, Bool.false_eq_true, if_false]
    rw [if_neg (by omega : ¬ args.num_shards ≤ 0)]
    rw [if_neg (not_not_intro ⟨hsi1, hsi2⟩)]
    rw [if_pos hemp]

/-- Witness for C9 (amended): a two-shard run over a one-file source
tree ends with its summary event; the same configuration over an empty
tree ends with the "nothing found" message. -/
theorem summary_spec_amended_witness :
    (discover ((⟨[["root", "x.glb"]], [["root"]]⟩ : FileSys).mkdir ["out"]) ["root"]
        (strLower ".glb") ≠ []
      ∧ (MeshToPoint.main ⟨["root"], ["out"], 1, 0, false, ".glb"⟩
          (fun _ => Except.ok ()) ⟨[["root", "x.glb"]], [["root"]]⟩).events.getLast?
        = some (Event.summary
            (MeshToPoint.main ⟨["root"], ["out"], 1, 0, false, ".glb"⟩
              (fun _ => Except.ok ()) ⟨[["root", "x.glb"]], [["root"]]⟩).processed
            (MeshToPoint.main ⟨["root"], ["out"], 1, 0, false, ".glb"⟩
              (fun _ => Except.ok ()) ⟨[["root", "x.glb"]], [["root"]]⟩).skipped
            (MeshToPoint.main ⟨["root"], ["out"], 1, 0, false, ".glb"⟩
              (fun _ => Except.ok ()) ⟨[["root", "x.glb"]], [["root"]]⟩).failed))
    ∧ (MeshToPoint.main ⟨["root"], ["out"], 1, 0, false, ".glb"⟩
        (fun _ => Except.ok ()) ⟨[], [["root"]]⟩).events = [Event.notFound] :=
  ⟨⟨by decide,
    ((summary_spec_amended ⟨["root"], ["out"], 1, 0, false, ".glb"⟩
        (fun _ => Except.ok ()) ⟨[["root", "x.glb"]], [["root"]]⟩
        (by decide) (by decide) (by decide) (by decide)).1 (by decide)).1⟩,
   (summary_spec_amended ⟨["root"], ["out"], 1, 0, false, ".glb"⟩
      (fun _ => Except.ok ()) ⟨[], [["root"]]⟩
      (by decide) (by decide) (by decide) (by decide)).2 (by decide)⟩

/-! ## Lemmas for resumability (C5) -/

theorem existsPath_mkdir (fs : FileSys) (d p : List String)
    (h : fs.existsPath p = true) : (fs.mkdir d).existsPath p = true := by
  simp only [FileSys.existsPath, FileSys.mkdir, Bool.or_eq_true, decide_eq_true_eq,
    List.mem_cons] at h ⊢
  tauto

theorem runLoop_pone_files_decomp (g : List String → Except String Unit)
    (tgt : List String) (skipf : FileSys → List String → Bool)
    (l : List (List String)) (acc : LoopAcc) :
    ∃ new, (runLoop tgt skipf (fun p fs => MeshToPoint.process_one g p tgt fs) l acc).fs.files
        = new ++ acc.fs.files
      ∧ ∀ q ∈ new, lastComponent q = "points.npy" ∨ lastComponent q = "num_parts.json" := by
  induction l generalizing acc with
  | nil => exact ⟨[], rfl, fun q hq => absurd hq (List.not_mem_nil q)⟩
  | cons p rest ih =>
      rw [runLoop]
      cases hskip : skipf acc.fs (tgt ++ [nameStem (lastComponent p)])
      · simp only [Bool.false_eq_true, if_false]
        cases hg : g p with
        | error e =>
            rw [process_one_error g p tgt acc.fs e hg]
            exact ih _
        | ok v =>
            cases v
            rw [process_one_ok g p tgt acc.fs hg]
            obtain ⟨new, hf, hnames⟩ := ih
              { acc with
                  processed := acc.processed + 1,
                  events := acc.events ++
                    [Event.processingMsg p, Event.okMsg (tgt ++ [nameStem (lastComponent p)])],
                  invoked := acc.invoked ++ [p],
                  fs := ((acc.fs.mkdir (tgt ++ [nameStem (lastComponent p)])).writeFile
                      (tgt ++ [nameStem (lastComponent p)] ++ ["points.npy"])).writeFile
                    (tgt ++ [nameStem (lastComponent p)] ++ ["num_parts.json"]) }
            refine ⟨new ++ [tgt ++ [nameStem (lastComponent p)] ++ ["num_parts.json"],
                tgt ++ [nameStem (lastComponent p)] ++ ["points.npy"]], ?_, ?_⟩
            · rw [hf]
              simp [FileSys.writeFile, FileSys.mkdir, List.append_assoc]
            · intro q hq
              rcases List.mem_append.mp hq with hq | hq
              · exact hnames q hq
              · rcases List.mem_cons.mp hq with rfl | hq
                · right
                  rw [lastComponent, List.getLastD_concat]
                · rcases List.mem_singleton.mp hq with rfl
                  left
                  rw [lastComponent, List.getLastD_concat]
      · simp only [if_true]
        exact ih _

theorem runLoop_pone_dirs_mono (g : List String → Except String Unit)
    (tgt : List String) (skipf : FileSys → List String → Bool)
    (l : List (List String)) (acc : LoopAcc) (q : List String)
    (hq : q ∈ acc.fs.dirs) :
    q ∈ (runLoop tgt skipf (fun p fs => MeshToPoint.process_one g p tgt fs) l acc).fs.dirs := by
  induction l generalizing acc with
  | nil => exact hq
  | cons p rest ih =>
      rw [runLoop]
      cases hskip : skipf acc.fs (tgt ++ [nameStem (lastComponent p)])
      · simp only [Bool.false_eq_true, if_false]
        cases hg : g p with
        | error e =>
            rw [process_one_error g p tgt acc.fs e hg]
            exact ih _ (by simp only [FileSys.mkdir, List.mem_cons]; exact Or.inr hq)
        | ok v =>
            cases v
            rw [process_one_ok g p tgt acc.fs hg]
            exact ih _ (by
              simp only [FileSys.writeFile, FileSys.mkdir, List.mem_cons]
              exact Or.inr hq)
      · simp only [if_true]
        exact ih _ hq

theorem runLoop_pone_files_mono (g : List String → Except String Unit)
    (tgt : List String) (skipf : FileSys → List String → Bool)
    (l : List (List String)) (acc : LoopAcc) (q : List String)
    (hq : q ∈ acc.fs.files) :
    q ∈ (runLoop tgt skipf (fun p fs => MeshToPoint.process_one g p tgt fs) l acc).fs.files := by
  obtain ⟨new, hf, _⟩ := runLoop_pone_files_decomp g tgt skipf l acc
  rw [hf]
  exact List.mem_append_right _ hq

theorem runLoop_pone_writes (g : List String → Except String Unit) (tgt : List String)
    (l : List (List String)) (acc : LoopAcc)
    (hg : ∀ p ∈ l, g p = Except.ok ()) :
    ∀ p ∈ l,
      (tgt ++ [nameStem (lastComponent p)] ++ ["points.npy"])
          ∈ (runLoop tgt (fun fs d => MeshToPoint.need_skip fs d false)
              (fun p fs => MeshToPoint.process_one g p tgt fs) l acc).fs.files
      ∧ (tgt ++ [nameStem (lastComponent p)] ++ ["num_parts.json"])
          ∈ (runLoop tgt (fun fs d => MeshToPoint.need_skip fs d false)
              (fun p fs => MeshToPoint.process_one g p tgt fs) l acc).fs.files := by
  induction l generalizing acc with
  | nil => intro p hp; exact absurd hp (List.not_mem_nil p)
  | cons p rest ih =>
      intro x hx
      rw [runLoop, need_skip_false]
      simp only [Bool.false_eq_true, if_false]
      rw [process_one_ok g p tgt acc.fs (hg p (List.mem_cons_self p rest))]
      rcases List.mem_cons.mp hx with rfl | hx
      · constructor
        · apply runLoop_pone_files_mono
          simp [FileSys.writeFile, FileSys.mkdir]
        · apply runLoop_pone_files_mono
          simp [FileSys.writeFile, FileSys.mkdir]
      · exact ih _ (fun q hq => hg q (List.mem_cons_of_mem p hq)) x hx

theorem discover_invariant (fs fs' : FileSys) (src : List String) (ext : String)
    (hfiles : ∃ new, fs'.files = new ++ fs.files
      ∧ ∀ q ∈ new, strLower (nameSuffix (lastComponent q)) ≠ ext)
    (hdir : fs'.isDir src = fs.isDir src) :
    discover fs' src ext = discover fs src ext := by
  rw [discover, discover, hdir]
  cases hd : fs.isDir src
  · simp
  · simp only [if_true]
    obtain ⟨new, hf, hne⟩ := hfiles
    rw [hf, List.filter_append]
    have hz : List.filter (fun p =>
        src.isPrefixOf p && decide (src.length < p.length) &&
          (strLower (nameSuffix (lastComponent p)) == ext)) new = [] := by
      rw [List.filter_eq_nil_iff]
      intro q hq
      simp [beq_eq_false_iff_ne.mpr (hne q hq)]
    rw [hz, List.nil_append]

theorem main_notFound_eq (args : Args) (g : List String → Except String Unit)
    (fs0 : FileSys)
    (hex : fs0.existsPath args.src_dir = true) (hns : 0 < args.num_shards)
    (hsi1 : 0 ≤ args.shard_index) (hsi2 : args.shard_index < args.num_shards)
    (he : discover (fs0.mkdir args.tgt_dir) args.src_dir (strLower args.ext) = []) :
    MeshToPoint.main args g fs0
      = ⟨0, [Event.notFound], 0, 0, 0, 0, [], [], fs0.mkdir args.tgt_dir⟩ := by
  rw [MeshToPoint.main]
  simp only [hex, Bool.not_true, Bool.false_eq_true, if_false]
  rw [if_neg (by omega : ¬ args.num_shards ≤ 0), if_neg (not_not_intro ⟨hsi1, hsi2⟩),
    if_pos he]

theorem main_loop_eq (args : Args) (g : List String → Except String Unit)
    (fs0 : FileSys)
    (hex : fs0.existsPath args.src_dir = true) (hns : 0 < args.num_shards)
    (hsi1 : 0 ≤ args.shard_index) (hsi2 : args.shard_index < args.num_shards)
    (hne : discover (fs0.mkdir args.tgt_dir) args.src_dir (strLower args.ext) ≠ []) :
    MeshToPoint.main args g fs0
      = ⟨0,
          (runLoop args.tgt_dir (fun fs d => MeshToPoint.need_skip fs d args.ignore_existing) (fun p fs => MeshToPoint.process_one g p args.tgt_dir fs) ((discover (fs0.mkdir args.tgt_dir) args.src_dir (strLower args.ext)).filter fun p => decide ((MeshToPoint.sha1_shard (relKey args.src_dir p) args.num_shards.toNat : Int) = args.shard_index)) (⟨0, 0, 0, [Event.shardInfo (discover (fs0.mkdir args.tgt_dir) args.src_dir (strLower args.ext)).length ((discover (fs0.mkdir args.tgt_dir) args.src_dir (strLower args.ext)).filter fun p => decide ((MeshToPoint.sha1_shard (relKey args.src_dir p) args.num_shards.toNat : Int) = args.shard_index)).length], [], [], fs0.mkdir args.tgt_dir⟩ : LoopAcc)).events
            ++ [Event.summary (runLoop args.tgt_dir (fun fs d => MeshToPoint.need_skip fs d args.ignore_existing) (fun p fs => MeshToPoint.process_one g p args.tgt_dir fs) ((discover (fs0.mkdir args.tgt_dir) args.src_dir (strLower args.ext)).filter fun p => decide ((MeshToPoint.sha1_shard (relKey args.src_dir p) args.num_shards.toNat : Int) = args.shard_index)) (⟨0, 0, 0, [Event.shardInfo (discover (fs0.mkdir args.tgt_dir) args.src_dir (strLower args.ext)).length ((discover (fs0.mkdir args.tgt_dir) args.src_dir (strLower args.ext)).filter fun p => decide ((MeshToPoint.sha1_shard (relKey args.src_dir p) args.num_shards.toNat : Int) = args.shard_index)).length], [], [], fs0.mkdir args.tgt_dir⟩ : LoopAcc)).processed (runLoop args.tgt_dir (fun fs d => MeshToPoint.need_skip fs d args.ignore_existing) (fun p fs => MeshToPoint.process_one g p args.tgt_dir fs) ((discover (fs0.mkdir args.tgt_dir) args.src_dir (strLower args.ext)).filter fun p => decide ((MeshToPoint.sha1_shard (relKey args.src_dir p) args.num_shards.toNat : Int) = args.shard_index)) (⟨0, 0, 0, [Event.shardInfo (discover (fs0.mkdir args.tgt_dir) args.src_dir (strLower args.ext)).length ((discover (fs0.mkdir args.tgt_dir) args.src_dir (strLower args.ext)).filter fun p => decide ((MeshToPoint.sha1_shard (relKey args.src_dir p) args.num_shards.toNat : Int) = args.shard_index)).length], [], [], fs0.mkdir args.tgt_dir⟩ : LoopAcc)).skipped (runLoop args.tgt_dir (fun fs d => MeshToPoint.need_skip fs d args.ignore_existing) (fun p fs => MeshToPoint.process_one g p args.tgt_dir fs) ((discover (fs0.mkdir args.tgt_dir) args.src_dir (strLower args.ext)).filter fun p => decide ((MeshToPoint.sha1_shard (relKey args.src_dir p) args.num_shards.toNat : Int) = args.shard_index)) (⟨0, 0, 0, [Event.shardInfo (discover (fs0.mkdir args.tgt_dir) args.src_dir (strLower args.ext)).length ((discover (fs0.mkdir args.tgt_dir) args.src_dir (strLower args.ext)).filter fun p => decide ((MeshToPoint.sha1_shard (relKey args.src_dir p) args.num_shards.toNat : Int) = args.shard_index)).length], [], [], fs0.mkdir args.tgt_dir⟩ : LoopAcc)).failed],
          (runLoop args.tgt_dir (fun fs d => MeshToPoint.need_skip fs d args.ignore_existing) (fun p fs => MeshToPoint.process_one g p args.tgt_dir fs) ((discover (fs0.mkdir args.tgt_dir) args.src_dir (strLower args.ext)).filter fun p => decide ((MeshToPoint.sha1_shard (relKey args.src_dir p) args.num_shards.toNat : Int) = args.shard_index)) (⟨0, 0, 0, [Event.shardInfo (discover (fs0.mkdir args.tgt_dir) args.src_dir (strLower args.ext)).length ((discover (fs0.mkdir args.tgt_dir) args.src_dir (strLower args.ext)).filter fun p => decide ((MeshToPoint.sha1_shard (relKey args.src_dir p) args.num_shards.toNat : Int) = args.shard_index)).length], [], [], fs0.mkdir args.tgt_dir⟩ : LoopAcc)).processed, (runLoop args.tgt_dir (fun fs d => MeshToPoint.need_skip fs d args.ignore_existing) (fun p fs => MeshToPoint.process_one g p args.tgt_dir fs) ((discover (fs0.mkdir args.tgt_dir) args.src_dir (strLower args.ext)).filter fun p => decide ((MeshToPoint.sha1_shard (relKey args.src_dir p) args.num_shards.toNat : Int) = args.shard_index)) (⟨0, 0, 0, [Event.shardInfo (discover (fs0.mkdir args.tgt_dir) args.src_dir (strLower args.ext)).length ((discover (fs0.mkdir args.tgt_dir) args.src_dir (strLower args.ext)).filter fun p => decide ((MeshToPoint.sha1_shard (relKey args.src_dir p) args.num_shards.toNat : Int) = args.shard_index)).length], [], [], fs0.mkdir args.tgt_dir⟩ : LoopAcc)).skipped, (runLoop args.tgt_dir (fun fs d => MeshToPoint.need_skip fs d args.ignore_existing) (fun p fs => MeshToPoint.process_one g p args.tgt_dir fs) ((discover (fs0.mkdir args.tgt_dir) args.src_dir (strLower args.ext)).filter fun p => decide ((MeshToPoint.sha1_shard (relKey args.src_dir p) args.num_shards.toNat : Int) = args.shard_index)) (⟨0, 0, 0, [Event.shardInfo (discover (fs0.mkdir args.tgt_dir) args.src_dir (strLower args.ext)).length ((discover (fs0.mkdir args.tgt_dir) args.src_dir (strLower args.ext)).filter fun p => decide ((MeshToPoint.sha1_shard (relKey args.src_dir p) args.num_shards.toNat : Int) = args.shard_index)).length], [], [], fs0.mkdir args.tgt_dir⟩ : LoopAcc)).failed,
          ((discover (fs0.mkdir args.tgt_dir) args.src_dir (strLower args.ext)).filter fun p => decide ((MeshToPoint.sha1_shard (relKey args.src_dir p) args.num_shards.toNat : Int) = args.shard_index)).length,
          (runLoop args.tgt_dir (fun fs d => MeshToPoint.need_skip fs d args.ignore_existing) (fun p fs => MeshToPoint.process_one g p args.tgt_dir fs) ((discover (fs0.mkdir args.tgt_dir) args.src_dir (strLower args.ext)).filter fun p => decide ((MeshToPoint.sha1_shard (relKey args.src_dir p) args.num_shards.toNat : Int) = args.shard_index)) (⟨0, 0, 0, [Event.shardInfo (discover (fs0.mkdir args.tgt_dir) args.src_dir (strLower args.ext)).length ((discover (fs0.mkdir args.tgt_dir) args.src_dir (strLower args.ext)).filter fun p => decide ((MeshToPoint.sha1_shard (relKey args.src_dir p) args.num_shards.toNat : Int) = args.shard_index)).length], [], [], fs0.mkdir args.tgt_dir⟩ : LoopAcc)).invoked, (runLoop args.tgt_dir (fun fs d => MeshToPoint.need_skip fs d args.ignore_existing) (fun p fs => MeshToPoint.process_one g p args.tgt_dir fs) ((discover (fs0.mkdir args.tgt_dir) args.src_dir (strLower args.ext)).filter fun p => decide ((MeshToPoint.sha1_shard (relKey args.src_dir p) args.num_shards.toNat : Int) = args.shard_index)) (⟨0, 0, 0, [Event.shardInfo (discover (fs0.mkdir args.tgt_dir) args.src_dir (strLower args.ext)).length ((discover (fs0.mkdir args.tgt_dir) args.src_dir (strLower args.ext)).filter fun p => decide ((MeshToPoint.sha1_shard (relKey args.src_dir p) args.num_shards.toNat : Int) = args.shard_index)).length], [], [], fs0.mkdir args.tgt_dir⟩ : LoopAcc)).failedList, (runLoop args.tgt_dir (fun fs d => MeshToPoint.need_skip fs d args.ignore_existing) (fun p fs => MeshToPoint.process_one g p args.tgt_dir fs) ((discover (fs0.mkdir args.tgt_dir) args.src_dir (strLower args.ext)).filter fun p => decide ((MeshToPoint.sha1_shard (relKey args.src_dir p) args.num_shards.toNat : Int) = args.shard_index)) (⟨0, 0, 0, [Event.shardInfo (discover (fs0.mkdir args.tgt_dir) args.src_dir (strLower args.ext)).length ((discover (fs0.mkdir args.tgt_dir) args.src_dir (strLower args.ext)).filter fun p => decide ((MeshToPoint.sha1_shard (relKey args.src_dir p) args.num_shards.toNat : Int) = args.shard_index)).length], [], [], fs0.mkdir args.tgt_dir⟩ : LoopAcc)).fs⟩ := by
  rw [MeshToPoint.main]
  simp only [hex, Bool.not_true, Bool.false_eq_true, if_false]
  rw [if_neg (by omega : ¬ args.num_shards ≤ 0), if_neg (not_not_intro ⟨hsi1, hsi2⟩),
    if_neg hne]

/-! ## C5: resumability -/

/-- C5: if a first run with `ignore_existing = false` passes validation
and processes every selected item successfully (each success writing
both manifest artifacts into the item's output directory), then a second
run over the same unchanged source with `ignore_existing = true`
reprocesses nothing: it reports `skipped = N` where `N` is the number of
selected items, and `processed = 0`.  (The extension must not itself be
one of the artifact suffixes, so that written artifacts are not
re-discovered as inputs.) -/
theorem resumability (args : Args) (g : List String → Except String Unit) (fs0 : FileSys)
    (hig : args.ignore_existing = false)
    (hg : ∀ p, g p = Except.ok ())
    (hex : fs0.existsPath args.src_dir = true)
    (hns : 0 < args.num_shards) (hsi1 : 0 ≤ args.shard_index)
    (hsi2 : args.shard_index < args.num_shards)
    (hext1 : strLower args.ext ≠ ".npy") (hext2 : strLower args.ext ≠ ".json") :
    (MeshToPoint.main { args with ignore_existing := true } g
        (MeshToPoint.main args g fs0).fs).skipped
      = (MeshToPoint.main args g fs0).selectedCount
    ∧ (MeshToPoint.main { args with ignore_existing := true } g
        (MeshToPoint.main args g fs0).fs).processed = 0
    ∧ (MeshToPoint.main { args with ignore_existing := true } g
        (MeshToPoint.main args g fs0).fs).selectedCount
      = (MeshToPoint.main args g fs0).selectedCount := by
  by_cases hemp : discover (fs0.mkdir args.tgt_dir) args.src_dir (strLower args.ext) = []
  · rw [main_notFound_eq args g fs0 hex hns hsi1 hsi2 hemp]
    dsimp only
    have hex2 : (fs0.mkdir args.tgt_dir).existsPath args.src_dir = true :=
      existsPath_mkdir fs0 args.tgt_dir args.src_dir hex
    have hd2 : discover ((fs0.mkdir args.tgt_dir).mkdir args.tgt_dir) args.src_dir
        (strLower args.ext) = [] := by
      rw [discover_invariant (fs0.mkdir args.tgt_dir)
        ((fs0.mkdir args.tgt_dir).mkdir args.tgt_dir) args.src_dir (strLower args.ext)
        ⟨[], rfl, fun q hq => absurd hq (List.not_mem_nil q)⟩
        (by
          simp only [FileSys.isDir, FileSys.mkdir]
          apply decide_eq_decide.mpr
          simp only [List.mem_cons]
          tauto)]
      exact hemp
    rw [main_notFound_eq { args with ignore_existing := true } g
      (fs0.mkdir args.tgt_dir) hex2 hns hsi1 hsi2 hd2]
    exact ⟨rfl, rfl, rfl⟩
  · rw [main_loop_eq args g fs0 hex hns hsi1 hsi2 hemp]
    rw [hig]
    dsimp only
    obtain ⟨new, hnew, hnames⟩ := runLoop_pone_files_decomp g args.tgt_dir
      (fun fs d => MeshToPoint.need_skip fs d false) ((discover (fs0.mkdir args.tgt_dir) args.src_dir (strLower args.ext)).filter fun p => decide ((MeshToPoint.sha1_shard (relKey args.src_dir p) args.num_shards.toNat : Int) = args.shard_index)) (⟨0, 0, 0, [Event.shardInfo (discover (fs0.mkdir args.tgt_dir) args.src_dir (strLower args.ext)).length ((discover (fs0.mkdir args.tgt_dir) args.src_dir (strLower args.ext)).filter fun p => decide ((MeshToPoint.sha1_shard (relKey args.src_dir p) args.num_shards.toNat : Int) = args.shard_index)).length], [], [], fs0.mkdir args.tgt_dir⟩ : LoopAcc)
    have hex2 : ((runLoop args.tgt_dir (fun fs d => MeshToPoint.need_skip fs d false) (fun p fs => MeshToPoint.process_one g p args.tgt_dir fs) ((discover (fs0.mkdir args.tgt_dir) args.src_dir (strLower args.ext)).filter fun p => decide ((MeshToPoint.sha1_shard (relKey args.src_dir p) args.num_shards.toNat : Int) = args.shard_index)) (⟨0, 0, 0, [Event.shardInfo (discover (fs0.mkdir args.tgt_dir) args.src_dir (strLower args.ext)).length ((discover (fs0.mkdir args.tgt_dir) args.src_dir (strLower args.ext)).filter fun p => decide ((MeshToPoint.sha1_shard (relKey args.src_dir p) args.num_shards.toNat : Int) = args.shard_index)).length], [], [], fs0.mkdir args.tgt_dir⟩ : LoopAcc)).fs).existsPath args.src_dir = true := by
      have h := hex
      simp only [FileSys.existsPath, Bool.or_eq_true, decide_eq_true_eq] at h ⊢
      rcases h with h | h
      · exact Or.inl (runLoop_pone_files_mono g args.tgt_dir
          (fun fs d => MeshToPoint.need_skip fs d false) ((discover (fs0.mkdir args.tgt_dir) args.src_dir (strLower args.ext)).filter fun p => decide ((MeshToPoint.sha1_shard (relKey args.src_dir p) args.num_shards.toNat : Int) = args.shard_index)) (⟨0, 0, 0, [Event.shardInfo (discover (fs0.mkdir args.tgt_dir) args.src_dir (strLower args.ext)).length ((discover (fs0.mkdir args.tgt_dir) args.src_dir (strLower args.ext)).filter fun p => decide ((MeshToPoint.sha1_shard (relKey args.src_dir p) args.num_shards.toNat : Int) = args.shard_index)).length], [], [], fs0.mkdir args.tgt_dir⟩ : LoopAcc) args.src_dir h)
      · exact Or.inr (runLoop_pone_dirs_mono g args.tgt_dir
          (fun fs d => MeshToPoint.need_skip fs d false) ((discover (fs0.mkdir args.tgt_dir) args.src_dir (strLower args.ext)).filter fun p => decide ((MeshToPoint.sha1_shard (relKey args.src_dir p) args.num_shards.toNat : Int) = args.shard_index)) (⟨0, 0, 0, [Event.shardInfo (discover (fs0.mkdir args.tgt_dir) args.src_dir (strLower args.ext)).length ((discover (fs0.mkdir args.tgt_dir) args.src_dir (strLower args.ext)).filter fun p => decide ((MeshToPoint.sha1_shard (relKey args.src_dir p) args.num_shards.toNat : Int) = args.shard_index)).length], [], [], fs0.mkdir args.tgt_dir⟩ : LoopAcc) args.src_dir
          (by simp only [FileSys.mkdir, List.mem_cons]; exact Or.inr h))
    have hd1 : (fs0.mkdir args.tgt_dir).isDir args.src_dir = true := by
      by_contra h
      apply hemp
      rw [discover, if_neg h]
    have hd2 : ((runLoop args.tgt_dir (fun fs d => MeshToPoint.need_skip fs d false) (fun p fs => MeshToPoint.process_one g p args.tgt_dir fs) ((discover (fs0.mkdir args.tgt_dir) args.src_dir (strLower args.ext)).filter fun p => decide ((MeshToPoint.sha1_shard (relKey args.src_dir p) args.num_shards.toNat : Int) = args.shard_index)) (⟨0, 0, 0, [Event.shardInfo (discover (fs0.mkdir args.tgt_dir) args.src_dir (strLower args.ext)).length ((discover (fs0.mkdir args.tgt_dir) args.src_dir (strLower args.ext)).filter fun p => decide ((MeshToPoint.sha1_shard (relKey args.src_dir p) args.num_shards.toNat : Int) = args.shard_index)).length], [], [], fs0.mkdir args.tgt_dir⟩ : LoopAcc)).fs.mkdir args.tgt_dir).isDir args.src_dir = true := by
      have h0 : args.src_dir ∈ (fs0.mkdir args.tgt_dir).dirs := by
        have h := hd1
        simp only [FileSys.isDir, decide_eq_true_eq] at h
        exact h
      have h1 : args.src_dir ∈ ((runLoop args.tgt_dir (fun fs d => MeshToPoint.need_skip fs d false) (fun p fs => MeshToPoint.process_one g p args.tgt_dir fs) ((discover (fs0.mkdir args.tgt_dir) args.src_dir (strLower args.ext)).filter fun p => decide ((MeshToPoint.sha1_shard (relKey args.src_dir p) args.num_shards.toNat : Int) = args.shard_index)) (⟨0, 0, 0, [Event.shardInfo (discover (fs0.mkdir args.tgt_dir) args.src_dir (strLower args.ext)).length ((discover (fs0.mkdir args.tgt_dir) args.src_dir (strLower args.ext)).filter fun p => decide ((MeshToPoint.sha1_shard (relKey args.src_dir p) args.num_shards.toNat : Int) = args.shard_index)).length], [], [], fs0.mkdir args.tgt_dir⟩ : LoopAcc)).fs).dirs :=
        runLoop_pone_dirs_mono g args.tgt_dir
          (fun fs d => MeshToPoint.need_skip fs d false) ((discover (fs0.mkdir args.tgt_dir) args.src_dir (strLower args.ext)).filter fun p => decide ((MeshToPoint.sha1_shard (relKey args.src_dir p) args.num_shards.toNat : Int) = args.shard_index)) (⟨0, 0, 0, [Event.shardInfo (discover (fs0.mkdir args.tgt_dir) args.src_dir (strLower args.ext)).length ((discover (fs0.mkdir args.tgt_dir) args.src_dir (strLower args.ext)).filter fun p => decide ((MeshToPoint.sha1_shard (relKey args.src_dir p) args.num_shards.toNat : Int) = args.shard_index)).length], [], [], fs0.mkdir args.tgt_dir⟩ : LoopAcc) args.src_dir h0
      simp only [FileSys.isDir, FileSys.mkdir, decide_eq_true_eq, List.mem_cons]
      exact Or.inr h1
    have hdisc2 : discover ((runLoop args.tgt_dir (fun fs d => MeshToPoint.need_skip fs d false) (fun p fs => MeshToPoint.process_one g p args.tgt_dir fs) ((discover (fs0.mkdir args.tgt_dir) args.src_dir (strLower args.ext)).filter fun p => decide ((MeshToPoint.sha1_shard (relKey args.src_dir p) args.num_shards.toNat : Int) = args.shard_index)) (⟨0, 0, 0, [Event.shardInfo (discover (fs0.mkdir args.tgt_dir) args.src_dir (strLower args.ext)).length ((discover (fs0.mkdir args.tgt_dir) args.src_dir (strLower args.ext)).filter fun p => decide ((MeshToPoint.sha1_shard (relKey args.src_dir p) args.num_shards.toNat : Int) = args.shard_index)).length], [], [], fs0.mkdir args.tgt_dir⟩ : LoopAcc)).fs.mkdir args.tgt_dir) args.src_dir (strLower args.ext)
        = discover (fs0.mkdir args.tgt_dir) args.src_dir (strLower args.ext) := by
      apply discover_invariant
      · refine ⟨new, hnew, ?_⟩
        intro q hq
        rcases hnames q hq with h | h
        · rw [h]
          have hs : strLower (nameSuffix "points.npy") = ".npy" := by decide
          rw [hs]
          exact fun hh => hext1 hh.symm
        · rw [h]
          have hs : strLower (nameSuffix "num_parts.json") = ".json" := by decide
          rw [hs]
          exact fun hh => hext2 hh.symm
      · rw [hd2, hd1]
    have hd2ne : discover ((runLoop args.tgt_dir (fun fs d => MeshToPoint.need_skip fs d false) (fun p fs => MeshToPoint.process_one g p args.tgt_dir fs) ((discover (fs0.mkdir args.tgt_dir) args.src_dir (strLower args.ext)).filter fun p => decide ((MeshToPoint.sha1_shard (relKey args.src_dir p) args.num_shards.toNat : Int) = args.shard_index)) (⟨0, 0, 0, [Event.shardInfo (discover (fs0.mkdir args.tgt_dir) args.src_dir (strLower args.ext)).length ((discover (fs0.mkdir args.tgt_dir) args.src_dir (strLower args.ext)).filter fun p => decide ((MeshToPoint.sha1_shard (relKey args.src_dir p) args.num_shards.toNat : Int) = args.shard_index)).length], [], [], fs0.mkdir args.tgt_dir⟩ : LoopAcc)).fs.mkdir args.tgt_dir) args.src_dir (strLower args.ext)
        ≠ [] := by
      rw [hdisc2]
      exact hemp
    rw [main_loop_eq { args with ignore_existing := true } g ((runLoop args.tgt_dir (fun fs d => MeshToPoint.need_skip fs d false) (fun p fs => MeshToPoint.process_one g p args.tgt_dir fs) ((discover (fs0.mkdir args.tgt_dir) args.src_dir (strLower args.ext)).filter fun p => decide ((MeshToPoint.sha1_shard (relKey args.src_dir p) args.num_shards.toNat : Int) = args.shard_index)) (⟨0, 0, 0, [Event.shardInfo (discover (fs0.mkdir args.tgt_dir) args.src_dir (strLower args.ext)).length ((discover (fs0.mkdir args.tgt_dir) args.src_dir (strLower args.ext)).filter fun p => decide ((MeshToPoint.sha1_shard (relKey args.src_dir p) args.num_shards.toNat : Int) = args.shard_index)).length], [], [], fs0.mkdir args.tgt_dir⟩ : LoopAcc)).fs)
      hex2 hns hsi1 hsi2 hd2ne]
    dsimp only
    rw [hdisc2]
    have hskips : ∀ p ∈ ((discover (fs0.mkdir args.tgt_dir) args.src_dir (strLower args.ext)).filter fun p => decide ((MeshToPoint.sha1_shard (relKey args.src_dir p) args.num_shards.toNat : Int) = args.shard_index)),
        (fun fs d => MeshToPoint.need_skip fs d true) ((⟨0, 0, 0, [Event.shardInfo (discover (fs0.mkdir args.tgt_dir) args.src_dir (strLower args.ext)).length ((discover (fs0.mkdir args.tgt_dir) args.src_dir (strLower args.ext)).filter fun p => decide ((MeshToPoint.sha1_shard (relKey args.src_dir p) args.num_shards.toNat : Int) = args.shard_index)).length], [], [], (runLoop args.tgt_dir (fun fs d => MeshToPoint.need_skip fs d false) (fun p fs => MeshToPoint.process_one g p args.tgt_dir fs) ((discover (fs0.mkdir args.tgt_dir) args.src_dir (strLower args.ext)).filter fun p => decide ((MeshToPoint.sha1_shard (relKey args.src_dir p) args.num_shards.toNat : Int) = args.shard_index)) (⟨0, 0, 0, [Event.shardInfo (discover (fs0.mkdir args.tgt_dir) args.src_dir (strLower args.ext)).length ((discover (fs0.mkdir args.tgt_dir) args.src_dir (strLower args.ext)).filter fun p => decide ((MeshToPoint.sha1_shard (relKey args.src_dir p) args.num_shards.toNat : Int) = args.shard_index)).length], [], [], fs0.mkdir args.tgt_dir⟩ : LoopAcc)).fs.mkdir args.tgt_dir⟩ : LoopAcc)).fs
          (args.tgt_dir ++ [nameStem (lastComponent p)]) = true := by
      intro p hp
      obtain ⟨hnpy, hjson⟩ := runLoop_pone_writes g args.tgt_dir ((discover (fs0.mkdir args.tgt_dir) args.src_dir (strLower args.ext)).filter fun p => decide ((MeshToPoint.sha1_shard (relKey args.src_dir p) args.num_shards.toNat : Int) = args.shard_index)) (⟨0, 0, 0, [Event.shardInfo (discover (fs0.mkdir args.tgt_dir) args.src_dir (strLower args.ext)).length ((discover (fs0.mkdir args.tgt_dir) args.src_dir (strLower args.ext)).filter fun p => decide ((MeshToPoint.sha1_shard (relKey args.src_dir p) args.num_shards.toNat : Int) = args.shard_index)).length], [], [], fs0.mkdir args.tgt_dir⟩ : LoopAcc)
        (fun q _ => hg q) p hp
      show MeshToPoint.need_skip ((runLoop args.tgt_dir (fun fs d => MeshToPoint.need_skip fs d false) (fun p fs => MeshToPoint.process_one g p args.tgt_dir fs) ((discover (fs0.mkdir args.tgt_dir) args.src_dir (strLower args.ext)).filter fun p => decide ((MeshToPoint.sha1_shard (relKey args.src_dir p) args.num_shards.toNat : Int) = args.shard_index)) (⟨0, 0, 0, [Event.shardInfo (discover (fs0.mkdir args.tgt_dir) args.src_dir (strLower args.ext)).length ((discover (fs0.mkdir args.tgt_dir) args.src_dir (strLower args.ext)).filter fun p => decide ((MeshToPoint.sha1_shard (relKey args.src_dir p) args.num_shards.toNat : Int) = args.shard_index)).length], [], [], fs0.mkdir args.tgt_dir⟩ : LoopAcc)).fs.mkdir args.tgt_dir)
        (args.tgt_dir ++ [nameStem (lastComponent p)]) true = true
      rw [MeshToPoint.need_skip]
      simp only [Bool.not_true, Bool.false_eq_true, if_false, MeshToPoint.REQUIRED_FILES,
        List.all_cons, List.all_nil, Bool.and_true, Bool.and_eq_true]
      simp only [FileSys.existsPath, FileSys.mkdir, Bool.or_eq_true, decide_eq_true_eq]
      exact ⟨Or.inl hnpy, Or.inl hjson⟩
    obtain ⟨s1, s2, s3, s4, s5⟩ := runLoop_allSkip args.tgt_dir
      (fun fs d => MeshToPoint.need_skip fs d true)
      (fun p fs => MeshToPoint.process_one g p args.tgt_dir fs) ((discover (fs0.mkdir args.tgt_dir) args.src_dir (strLower args.ext)).filter fun p => decide ((MeshToPoint.sha1_shard (relKey args.src_dir p) args.num_shards.toNat : Int) = args.shard_index)) (⟨0, 0, 0, [Event.shardInfo (discover (fs0.mkdir args.tgt_dir) args.src_dir (strLower args.ext)).length ((discover (fs0.mkdir args.tgt_dir) args.src_dir (strLower args.ext)).filter fun p => decide ((MeshToPoint.sha1_shard (relKey args.src_dir p) args.num_shards.toNat : Int) = args.shard_index)).length], [], [], (runLoop args.tgt_dir (fun fs d => MeshToPoint.need_skip fs d false) (fun p fs => MeshToPoint.process_one g p args.tgt_dir fs) ((discover (fs0.mkdir args.tgt_dir) args.src_dir (strLower args.ext)).filter fun p => decide ((MeshToPoint.sha1_shard (relKey args.src_dir p) args.num_shards.toNat : Int) = args.shard_index)) (⟨0, 0, 0, [Event.shardInfo (discover (fs0.mkdir args.tgt_dir) args.src_dir (strLower args.ext)).length ((discover (fs0.mkdir args.tgt_dir) args.src_dir (strLower args.ext)).filter fun p => decide ((MeshToPoint.sha1_shard (relKey args.src_dir p) args.num_shards.toNat : Int) = args.shard_index)).length], [], [], fs0.mkdir args.tgt_dir⟩ : LoopAcc)).fs.mkdir args.tgt_dir⟩ : LoopAcc) hskips
    refine ⟨?_, ?_, ?_⟩
    · rw [s1]; dsimp only; omega
    · rw [s2]
    · rfl

/-- Witness for C5: one `.glb` file under the source root, constant
successful mesh work; the second run skips everything. -/
theorem resumability_witness :
    (MeshToPoint.main
        { (⟨["root"], ["out"], 1, 0, false, ".glb"⟩ : Args) with ignore_existing := true }
        (fun _ => Except.ok ())
        (MeshToPoint.main ⟨["root"], ["out"], 1, 0, false, ".glb"⟩ (fun _ => Except.ok ())
          ⟨[["root", "x.glb"]], [["root"]]⟩).fs).skipped
      = (MeshToPoint.main ⟨["root"], ["out"], 1, 0, false, ".glb"⟩ (fun _ => Except.ok ())
          ⟨[["root", "x.glb"]], [["root"]]⟩).selectedCount
    ∧ (MeshToPoint.main
        { (⟨["root"], ["out"], 1, 0, false, ".glb"⟩ : Args) with ignore_existing := true }
        (fun _ => Except.ok ())
        (MeshToPoint.main ⟨["root"], ["out"], 1, 0, false, ".glb"⟩ (fun _ => Except.ok ())
          ⟨[["root", "x.glb"]], [["root"]]⟩).fs).processed = 0 :=
  ⟨(resumability ⟨["root"], ["out"], 1, 0, false, ".glb"⟩ (fun _ => Except.ok ())
      ⟨[["root", "x.glb"]], [["root"]]⟩ rfl (fun _ => rfl) (by decide) (by decide)
      (by decide) (by decide) (by decide) (by decide)).1,
   (resumability ⟨["root"], ["out"], 1, 0, false, ".glb"⟩ (fun _ => Except.ok ())
      ⟨[["root", "x.glb"]], [["root"]]⟩ rfl (fun _ => rfl) (by decide) (by decide)
      (by decide) (by decide) (by decide) (by decide)).2.1⟩

/-! ## C10: the IoU stage's inner error isolation -/

theorem iou_need_skip_false (fs : FileSys) (d : List String) :
    Iou.need_skip fs d false = false := rfl

/-- C10: in the IoU stage, when the mesh loads successfully but the
inner IoU computation raises, `process_one` does not propagate the
error: it still writes `iou.json` with `iou_mean = 0`, `iou_max = 0` and
an empty `iou_list`, the item is counted as processed (not failed) by
the loop, and a later run with `ignore_existing = true` finds the output
complete and skips it. -/
theorem iou_inner_error_isolated (load : List String → Except String Unit)
    (iou : List String → Except String (Option (List ℚ)))
    (x tgt : List String) (e : String) (fs : FileSys)
    (hl : load x = Except.ok ()) (hi : iou x = Except.error e) :
    (Iou.process_one load iou x tgt fs).2 = Except.ok ⟨0, 0, []⟩
    ∧ (Iou.process_one load iou x tgt fs).1.files
        = (tgt ++ [nameStem (lastComponent x)] ++ [Iou.OUTPUT_FILE]) :: fs.files
    ∧ (runLoop tgt (fun fs d => Iou.need_skip fs d false)
        (fun p fs => Iou.process_one load iou p tgt fs) [x]
        ⟨0, 0, 0, [], [], [], fs⟩).processed = 1
    ∧ (runLoop tgt (fun fs d => Iou.need_skip fs d false)
        (fun p fs => Iou.process_one load iou p tgt fs) [x]
        ⟨0, 0, 0, [], [], [], fs⟩).failed = 0
    ∧ (runLoop tgt (fun fs d => Iou.need_skip fs d false)
        (fun p fs => Iou.process_one load iou p tgt fs) [x]
        ⟨0, 0, 0, [], [], [], fs⟩).skipped = 0
    ∧ Iou.need_skip
        (runLoop tgt (fun fs d => Iou.need_skip fs d false)
          (fun p fs => Iou.process_one load iou p tgt fs) [x]
          ⟨0, 0, 0, [], [], [], fs⟩).fs
        (tgt ++ [nameStem (lastComponent x)]) true = true := by
  have hpo : Iou.process_one load iou x tgt fs
      = ((fs.mkdir (tgt ++ [nameStem (lastComponent x)])).writeFile
          (tgt ++ [nameStem (lastComponent x)] ++ [Iou.OUTPUT_FILE]),
         Except.ok ⟨0, 0, []⟩) := by
    simp only [Iou.process_one, hl, hi]
  have hloop : runLoop tgt (fun fs d => Iou.need_skip fs d false)
      (fun p fs => Iou.process_one load iou p tgt fs) [x] ⟨0, 0, 0, [], [], [], fs⟩
      = { processed := 1, skipped := 0, failed := 0,
          events := [] ++ [Event.processingMsg x,
            Event.okMsg (tgt ++ [nameStem (lastComponent x)])],
          invoked := [] ++ [x], failedList := [],
          fs := (fs.mkdir (tgt ++ [nameStem (lastComponent x)])).writeFile
            (tgt ++ [nameStem (lastComponent x)] ++ [Iou.OUTPUT_FILE]) } := by
    rw [runLoop, iou_need_skip_false]
    simp only [Bool.false_eq_true, if_false]
    rw [hpo]
    dsimp only
    rw [runLoop]
  refine ⟨by rw [hpo], ?_, ?_, ?_, ?_, ?_⟩
  · simp [hpo, FileSys.writeFile, FileSys.mkdir]
  · rw [hloop]
  · rw [hloop]
  · rw [hloop]
  · rw [hloop]
    simp [Iou.need_skip, Iou.REQUIRED_FILES, FileSys.existsPath, FileSys.writeFile,
      FileSys.mkdir, List.mem_cons]

/-- Witness for C10: a single item whose IoU computation fails while the
mesh loads fine. -/
theorem iou_inner_error_isolated_witness :
    (Iou.process_one (fun _ => Except.ok ()) (fun _ => Except.error "iou fail")
        ["m.glb"] ["out"] ⟨[], []⟩).2 = Except.ok ⟨0, 0, []⟩
    ∧ (runLoop ["out"] (fun fs d => Iou.need_skip fs d false)
        (fun p fs => Iou.process_one (fun _ => Except.ok ())
          (fun _ => Except.error "iou fail") p ["out"] fs) [["m.glb"]]
        ⟨0, 0, 0, [], [], [], ⟨[], []⟩⟩).processed = 1
    ∧ Iou.need_skip
        (runLoop ["out"] (fun fs d => Iou.need_skip fs d false)
          (fun p fs => Iou.process_one (fun _ => Except.ok ())
            (fun _ => Except.error "iou fail") p ["out"] fs) [["m.glb"]]
          ⟨0, 0, 0, [], [], [], ⟨[], []⟩⟩).fs
        (["out"] ++ [nameStem (lastComponent ["m.glb"])]) true = true :=
  ⟨(iou_inner_error_isolated (fun _ => Except.ok ()) (fun _ => Except.error "iou fail")
      ["m.glb"] ["out"] "iou fail" ⟨[], []⟩ rfl rfl).1,
   (iou_inner_error_isolated (fun _ => Except.ok ()) (fun _ => Except.error "iou fail")
      ["m.glb"] ["out"] "iou fail" ⟨[], []⟩ rfl rfl).2.2.1,
   (iou_inner_error_isolated (fun _ => Except.ok ()) (fun _ => Except.error "iou fail")
      ["m.glb"] ["out"] "iou fail" ⟨[], []⟩ rfl rfl).2.2.2.2.2⟩
